import Mathlib

/-!
Shallow embedding of tensorflow_model_analysis/eval_saved_model/export.py.

The file models the data and control flow of the export module:
tensors and tensor dictionaries, the graph-collection metadata store
(an append-only multimap from collection name to encoded entries),
the estimator adaptation step, the parsing eval input receiver builder,
and the export procedure itself, which is modelled as a function
producing an ordered trace of observable events (graph construction,
collection registration, checkpoint restore, filesystem writes and the
final rename) together with an error-or-path result.
-/

namespace TFMAExport

/-- Computation-graph node. Identity wrapping, constants, placeholders and
parse results are the node shapes the export module manipulates. -/
inductive Tensor where
  | base (id : Nat)
  | identity (t : Tensor)
  | constant (value : Int)
  | placeholder (name : String)
  | parsed (input : Tensor) (key : String)
deriving DecidableEq, Repr

/-- Value that is either a bare tensor or a dict of tensors, mirroring the
TensorTypeMaybeDict union used throughout export.py. Python dicts preserve
insertion order, so the dict side is an ordered association list. -/
inductive TensorOrDict where
  | tensor (t : Tensor)
  | dict (entries : List (String × Tensor))
deriving DecidableEq, Repr

/-- Modelled from the spec: encoding.encode_key and encoding.encode_tensor_node
(encoding.py is not part of the provided sources). The spec requires an
unambiguously decodable format, modelled by distinct constructors. -/
inductive Encoded where
  | key (k : String)
  | node (t : Tensor)
  | version (s : String)
deriving DecidableEq, Repr

/-- Modelled from the spec: encoding.encode_key. -/
def encode_key (k : String) : Encoded := Encoded.key k

/-- Modelled from the spec: encoding.encode_tensor_node. -/
def encode_tensor_node (t : Tensor) : Encoded := Encoded.node t

/-- Modelled from the spec: the load-time inverse of encode_key. -/
def decode_key : Encoded → Option String
  | Encoded.key k => some k
  | _ => none

/-- Modelled from the spec: the load-time inverse of encode_tensor_node. -/
def decode_tensor_node : Encoded → Option Tensor
  | Encoded.node t => some t
  | _ => none

/-- Modelled from the spec: collection-name constants of encoding.py
(section 6 of the spec fixes the bucket names). -/
def KEY_SUFFIX : String := "key"

/-- Modelled from the spec: node suffix of a KEY/NODE bucket pair. -/
def NODE_SUFFIX : String := "node"

/-- Modelled from the spec: value-op suffix of the metrics bucket. -/
def VALUE_OP_SUFFIX : String := "value_op"

/-- Modelled from the spec: update-op suffix of the metrics bucket. -/
def UPDATE_OP_SUFFIX : String := "update_op"

/-- Modelled from the spec: version marker collection name. -/
def TFMA_VERSION_COLLECTION : String := "tfma_version"

/-- Modelled from the spec: metrics bucket name. -/
def METRICS_COLLECTION : String := "metrics"

/-- Modelled from the spec: predictions bucket name. -/
def PREDICTIONS_COLLECTION : String := "predictions"

/-- Modelled from the spec: labels bucket name. -/
def LABELS_COLLECTION : String := "labels"

/-- Modelled from the spec: features bucket name. -/
def FEATURES_COLLECTION : String := "features"

/-- Modelled from the spec: input-example collection name. -/
def INPUT_EXAMPLE_COLLECTION : String := "input_example"

/-- Modelled from the spec: default key used when predictions arrive as a
bare tensor. -/
def DEFAULT_PREDICTIONS_DICT_KEY : String := "predictions"

/-- Modelled from the spec: default key used when labels arrive as a bare
tensor. -/
def DEFAULT_LABELS_DICT_KEY : String := "labels"

/-- Modelled from the spec: version.VERSION_STRING, the literal version
string embedded once per export (version.py is not part of the sources). -/
def VERSION_STRING : String := "tfma-version-string"

/-- Modelled from the spec: util.wrap_tensor_or_dict_of_tensors_in_identity
(util.py is not part of the provided sources). A bare tensor becomes a
transparent pass-through identity node; a mapping is wrapped entrywise with
identical keys. -/
def wrap_tensor_or_dict_of_tensors_in_identity : TensorOrDict → TensorOrDict
  | TensorOrDict.tensor t => TensorOrDict.tensor (Tensor.identity t)
  | TensorOrDict.dict m => TensorOrDict.dict (m.map fun kv => (kv.1, Tensor.identity kv.2))

/-- Normalization of a maybe-dict value to a dict, mirroring the inline
pattern of export.py: if not isinstance(value, dict) then wrap it in a
single-entry dict under the default key, else leave the value unchanged. -/
def normalizeToDict (default_key : String) (value : TensorOrDict) : TensorOrDict :=
  match value with
  | TensorOrDict.tensor t => TensorOrDict.dict [(default_key, t)]
  | TensorOrDict.dict _ => value

/-- Entries of a dict-shaped value; a bare tensor has no entries (export.py
only takes items after normalization, or fails with AttributeError, which
the export model surfaces explicitly). -/
def itemsOf : TensorOrDict → List (String × Tensor)
  | TensorOrDict.tensor _ => []
  | TensorOrDict.dict m => m

/-- First-match association-list lookup, mirroring Python dict subscripting
on the string-keyed dicts of this module. -/
def lookupAssoc (m : List (String × Tensor)) (k : String) : Option Tensor :=
  match m with
  | [] => none
  | kv :: rest => if kv.1 = k then some kv.2 else lookupAssoc rest k

/-- Characters of a path after the last slash, i.e. the basename part of
the Python os.path.split convention. -/
def basenameChars (l : List Char) : List Char :=
  (l.reverse.takeWhile (fun c => c ≠ '/')).reverse

/-- Characters of a path up to and including the last slash, i.e. the raw
head part of the Python os.path.split convention before stripping. -/
def rawHeadChars (l : List Char) : List Char :=
  (l.reverse.dropWhile (fun c => c ≠ '/')).reverse

/-- Removal of trailing slash characters, mirroring Python rstrip applied
with a slash argument. -/
def dropTrailingSlashes (l : List Char) : List Char :=
  (l.reverse.dropWhile (fun c => c = '/')).reverse

/-- Head part of os.path.split: the raw head, with trailing slashes
stripped unless the head consists only of slashes. -/
def headChars (l : List Char) : List Char :=
  let head := rawHeadChars l
  if head.any (fun c => c ≠ '/') then dropTrailingSlashes head else head

/-- Model of Python os.path.split on POSIX paths. -/
def ospathSplit (p : String) : String × String :=
  (String.mk (headChars p.data), String.mk (basenameChars p.data))

/-- Whether a string starts with a slash character. -/
def startsWithSlash (s : String) : Bool :=
  match s.data with
  | [] => false
  | c :: _ => c = '/'

/-- Whether a string ends with a slash character. -/
def endsWithSlash (s : String) : Bool :=
  match s.data.getLast? with
  | some c => c = '/'
  | none => false

/-- Model of Python os.path.join on POSIX paths for two components. -/
def ospathJoin (a b : String) : String :=
  if startsWithSlash b then b
  else if a.data.isEmpty || endsWithSlash a then a ++ b
  else a ++ "/" ++ b

/-- Faithful model of export.py _get_temp_export_dir: split the timestamped
export directory and rejoin its dirname with a leaf name carrying the
temp- prefix. -/
def _get_temp_export_dir (timestamped_export_dir : String) : String :=
  let split := ospathSplit timestamped_export_dir
  ospathJoin split.1 ("temp-" ++ split.2)

/-- Modelled from the spec: the external timestamped-directory-name
allocation collaborator (estimator_util.get_timestamped_dir), which places
a fresh unix-timestamp leaf under the export base directory. -/
def get_timestamped_dir (export_dir_base : String) (timestamp : Nat) : String :=
  ospathJoin export_dir_base (toString timestamp)

/-- Estimator variants seen by the isinstance dispatch in export.py: core
tf.estimator.Estimator instances, contrib estimators, and any other object
passed where an estimator is expected. -/
inductive EstimatorVariant where
  | core
  | contrib
  | other
deriving DecidableEq, Repr

/-- Scaffold bundle: an optional saver (modelled by an identifier) and an
optional local-init op. -/
structure Scaffold where
  saver : Option Nat
  localInitOp : Option Tensor
deriving DecidableEq, Repr

/-- Result shape of a core estimator model function in EVAL mode, holding
the fields export.py reads. -/
structure EstimatorSpec where
  loss : Tensor
  predictions : TensorOrDict
  eval_metric_ops : List (String × Tensor × Tensor)
  scaffold : Option Scaffold
deriving Repr

/-- Result shape of a contrib (legacy) estimator model function: no loss
field is consumed by export.py. -/
structure ModelFnOps where
  predictions : TensorOrDict
  eval_metric_ops : List (String × Tensor × Tensor)
  scaffold : Option Scaffold
deriving Repr

/-- Estimator as consumed by export.py: the variant decides which calling
convention its model function follows (Python resolves this dynamically;
the model carries one function per convention, of which the dispatch uses
exactly one), together with the configuration fields export.py reads. -/
structure Estimator where
  variant : EstimatorVariant
  coreModelFn : TensorOrDict → TensorOrDict → EstimatorSpec
  contribModelFn : TensorOrDict → TensorOrDict → ModelFnOps
  tfRandomSeed : Option Int
  modelDir : String

/-- Return type for eval_input_receiver_fn, mirroring the EvalInputReceiver
named tuple. receiver_tensors is modelled as a dict since export.py
subscripts it by the examples key. -/
structure EvalInputReceiver where
  features : TensorOrDict
  receiver_tensors : List (String × Tensor)
  labels : TensorOrDict

/-- Saver chosen for checkpoint restore: the scaffold's saver when present,
else a default sharded saver. -/
inductive SaverChoice where
  | fromScaffold (id : Nat)
  | defaultSharded
deriving DecidableEq, Repr

/-- Observable steps of one export call, in program order: graph-context
actions, collection registrations, checkpoint restore, the serialized
write into a directory, and the directory rename. -/
inductive Event where
  | invokeReceiverFn
  | createGlobalStep
  | setRandomSeed (seed : Option Int)
  | callModelFn (core : Bool) (features labels : TensorOrDict)
  | addToCollection (name : String) (value : Encoded)
  | restoreCheckpoint (saver : SaverChoice) (path : String)
  | writeSavedModel (dir : String)
  | renameDir (src dst : String)
deriving DecidableEq, Repr

/-- Errors export.py can raise in the modelled paths: KeyError from the
examples subscript, AttributeError from taking items of a non-dict
features value, and the ValueError raised for a missing checkpoint. -/
inductive ExportError where
  | keyError
  | attributeError
  | valueError (msg : String)
deriving DecidableEq, Repr

/-- Faithful model of export.py _encode_and_add_to_node_collection: append
one encoded KEY entry and one encoded NODE entry to the two buckets of the
given collection prefix, in that order. -/
def _encode_and_add_to_node_collection (coll : String) (key : String) (node : Tensor) :
    List Event :=
  [Event.addToCollection (coll ++ "/" ++ KEY_SUFFIX) (encode_key key),
   Event.addToCollection (coll ++ "/" ++ NODE_SUFFIX) (encode_tensor_node node)]

/-- Registration events for one KEY/NODE bucket: one call of
_encode_and_add_to_node_collection per entry, in iteration order. -/
def nodeCollectionEvents (coll : String) : List (String × Tensor) → List Event
  | [] => []
  | kv :: rest => _encode_and_add_to_node_collection coll kv.1 kv.2 ++ nodeCollectionEvents coll rest

/-- Registration events for the metrics bucket: KEY, VALUE_OP and UPDATE_OP
entries per metric, in iteration order, as in the export.py loop over
eval_metric_ops. -/
def metricEvents : List (String × Tensor × Tensor) → List Event
  | [] => []
  | m :: rest =>
      Event.addToCollection (METRICS_COLLECTION ++ "/" ++ KEY_SUFFIX) (encode_key m.1)
      :: Event.addToCollection (METRICS_COLLECTION ++ "/" ++ VALUE_OP_SUFFIX)
           (encode_tensor_node m.2.1)
      :: Event.addToCollection (METRICS_COLLECTION ++ "/" ++ UPDATE_OP_SUFFIX)
           (encode_tensor_node m.2.2)
      :: metricEvents rest

/-- Model-adaptation step of export.py: a core estimator's model function
is called directly in EVAL mode; any other estimator is treated as a
contrib estimator whose result is converted into an EstimatorSpec with a
zero-constant loss, carrying predictions, metric ops and scaffold through.
The boolean records which branch ran. -/
def adaptModel (est : Estimator) (features labels : TensorOrDict) : Bool × EstimatorSpec :=
  if est.variant = EstimatorVariant.core then
    (true, est.coreModelFn features labels)
  else
    let ops := est.contribModelFn features labels
    (false,
     { loss := Tensor.constant 0,
       predictions := ops.predictions,
       eval_metric_ops := ops.eval_metric_ops,
       scaffold := ops.scaffold })

/-- Saver selection of export.py: the scaffold saver when scaffold and
saver are both present, else a default sharded saver. -/
def saverForRestore (spec : EstimatorSpec) : SaverChoice :=
  match spec.scaffold with
  | some sc =>
      match sc.saver with
      | some s => SaverChoice.fromScaffold s
      | none => SaverChoice.defaultSharded
  | none => SaverChoice.defaultSharded

/-- External collaborators of one export call: checkpoint discovery and the
timestamp used for directory-name allocation. -/
structure ExportEnv where
  latestCheckpoint : String → Option String
  timestamp : Nat

/-- Checkpoint resolution of export.py: a falsy checkpoint_path argument
(absent or empty) triggers discovery of the latest checkpoint under the
model directory; a falsy result of that discovery is an error, signalled
here by none. -/
def resolveCheckpoint (env : ExportEnv) (est : Estimator) (cp : Option String) :
    Option String :=
  let given :=
    match cp with
    | some p => if p.data.isEmpty then env.latestCheckpoint est.modelDir else some p
    | none => env.latestCheckpoint est.modelDir
  match given with
  | some p => if p.data.isEmpty then none else some p
  | none => none

/-- Events of the graph-construction phase of export.py, through the
predictions registrations: receiver invocation, global-step creation,
random seeding, the model-function call on identity-wrapped inputs, the
version marker, metric registrations and prediction registrations. -/
def graphPhaseEvents (est : Estimator) (receiver : EvalInputReceiver) : List Event :=
  let wrapped_features := wrap_tensor_or_dict_of_tensors_in_identity receiver.features
  let wrapped_labels := wrap_tensor_or_dict_of_tensors_in_identity receiver.labels
  let adapted := adaptModel est wrapped_features wrapped_labels
  [Event.invokeReceiverFn,
   Event.createGlobalStep,
   Event.setRandomSeed est.tfRandomSeed,
   Event.callModelFn adapted.1 wrapped_features wrapped_labels,
   Event.addToCollection TFMA_VERSION_COLLECTION (Encoded.version VERSION_STRING)]
  ++ metricEvents adapted.2.eval_metric_ops
  ++ nodeCollectionEvents PREDICTIONS_COLLECTION
       (itemsOf (normalizeToDict DEFAULT_PREDICTIONS_DICT_KEY adapted.2.predictions))

/-- Faithful model of export.py export_eval_savedmodel: build the graph and
register every semantically tagged node, resolve the checkpoint, then
restore weights, write the saved model into the temp- sibling directory and
rename it to the final timestamped path. The result is the ordered event
trace together with the returned path or the first error raised. -/
def export_eval_savedmodel (env : ExportEnv) (est : Estimator) (export_dir_base : String)
    (eval_input_receiver_fn : Unit → EvalInputReceiver) (checkpoint_path : Option String) :
    List Event × Except ExportError String :=
  let receiver := eval_input_receiver_fn ()
  let gtrace := graphPhaseEvents est receiver
  let spec := (adaptModel est
    (wrap_tensor_or_dict_of_tensors_in_identity receiver.features)
    (wrap_tensor_or_dict_of_tensors_in_identity receiver.labels)).2
  match lookupAssoc receiver.receiver_tensors "examples" with
  | none => (gtrace, Except.error ExportError.keyError)
  | some example_node =>
    let t2 := gtrace
      ++ [Event.addToCollection INPUT_EXAMPLE_COLLECTION (encode_tensor_node example_node)]
      ++ nodeCollectionEvents LABELS_COLLECTION
           (itemsOf (normalizeToDict DEFAULT_LABELS_DICT_KEY receiver.labels))
    match receiver.features with
    | TensorOrDict.tensor _ => (t2, Except.error ExportError.attributeError)
    | TensorOrDict.dict fs =>
      let t3 := t2 ++ nodeCollectionEvents FEATURES_COLLECTION fs
      match resolveCheckpoint env est checkpoint_path with
      | none =>
          (t3, Except.error (ExportError.valueError
            ("Could not find trained model at " ++ est.modelDir ++ ".")))
      | some cp =>
        let export_dir := get_timestamped_dir export_dir_base env.timestamp
        let temp_export_dir := _get_temp_export_dir export_dir
        (t3 ++ [Event.restoreCheckpoint (saverForRestore spec) cp,
                Event.writeSavedModel temp_export_dir,
                Event.renameDir temp_export_dir export_dir],
         Except.ok export_dir)

/-- Modelled from the spec: tf.parse_example parses the serialized input
according to the feature spec, yielding one tensor per spec entry under the
same key, in spec order. Parse-rule details are irrelevant to the claims
and elided. -/
def parse_example (serialized : Tensor) (feature_spec : List String) :
    List (String × Tensor) :=
  feature_spec.map fun k => (k, Tensor.parsed serialized k)

/-- Faithful model of export.py build_parsing_eval_input_receiver_fn: the
returned factory creates the serialized-input placeholder, parses it
according to the feature spec, and returns an EvalInputReceiver exposing
the placeholder under the examples key, the full parsed mapping as
features, and the tensor at label_key as labels. A missing label key makes
the Python subscript raise KeyError, modelled by none. -/
def build_parsing_eval_input_receiver_fn (feature_spec : List String) (label_key : String) :
    Unit → Option EvalInputReceiver :=
  fun _ =>
    let serialized_tf_example := Tensor.placeholder "input_example_tensor"
    let features := parse_example serialized_tf_example feature_spec
    match lookupAssoc features label_key with
    | some label_node =>
        some { features := TensorOrDict.dict features,
               receiver_tensors := [("examples", serialized_tf_example)],
               labels := TensorOrDict.tensor label_node }
    | none => none

/-- Contents of a collection in the append-only graph metadata store,
reconstructed from the event trace in append order. -/
def getCollection (trace : List Event) (name : String) : List Encoded :=
  trace.filterMap fun e =>
    match e with
    | Event.addToCollection n v => if n = name then some v else none
    | _ => none

/-- Load-time pairing of a KEY list with a NODE list: succeeds exactly when
the lists have equal length and every entry decodes, returning the zipped
mapping. -/
def decodePairs : List Encoded → List Encoded → Option (List (String × Tensor))
  | [], [] => some []
  | k :: ks, n :: ns =>
      match decode_key k, decode_tensor_node n, decodePairs ks ns with
      | some k', some n', some rest => some ((k', n') :: rest)
      | _, _, _ => none
  | _, _ => none

/-- Load-time pairing for the metrics bucket across its three parallel
collections. -/
def decodeTriples : List Encoded → List Encoded → List Encoded →
    Option (List (String × Tensor × Tensor))
  | [], [], [] => some []
  | k :: ks, v :: vs, u :: us =>
      match decode_key k, decode_tensor_node v, decode_tensor_node u,
            decodeTriples ks vs us with
      | some k', some v', some u', some rest => some ((k', v', u') :: rest)
      | _, _, _, _ => none
  | _, _, _ => none

/-- Decoded KEY/NODE mapping of one bucket of a trace. -/
def decodeBucket (trace : List Event) (coll : String) : Option (List (String × Tensor)) :=
  decodePairs (getCollection trace (coll ++ "/" ++ KEY_SUFFIX))
    (getCollection trace (coll ++ "/" ++ NODE_SUFFIX))

/-- Decoded metrics mapping of a trace. -/
def decodeMetrics (trace : List Event) : Option (List (String × Tensor × Tensor)) :=
  decodeTriples (getCollection trace (METRICS_COLLECTION ++ "/" ++ KEY_SUFFIX))
    (getCollection trace (METRICS_COLLECTION ++ "/" ++ VALUE_OP_SUFFIX))
    (getCollection trace (METRICS_COLLECTION ++ "/" ++ UPDATE_OP_SUFFIX))

/-- Whether an event touches the filesystem. -/
def isFsEvent : Event → Bool
  | Event.writeSavedModel _ => true
  | Event.renameDir _ _ => true
  | _ => false

/-- Effect of one event on the set of directories present on disk, as a
list: a saved-model write creates its directory, a rename removes the
source and creates the destination. -/
def applyFsEvent (fs : List String) : Event → List String
  | Event.writeSavedModel d => fs ++ [d]
  | Event.renameDir src dst => (fs.filter fun p => p ≠ src) ++ [dst]
  | _ => fs

/-- Directories present on disk after a trace, starting from an empty
export area. -/
def fsAfter (trace : List Event) : List String :=
  trace.foldl applyFsEvent []

/-- Sample environment with a discoverable checkpoint, for concrete runs. -/
def sampleEnv : ExportEnv :=
  { latestCheckpoint := fun _ => some "/model/ck-7", timestamp := 123 }

/-- Sample environment whose model directory holds no checkpoint. -/
def sampleEnvNoCk : ExportEnv :=
  { latestCheckpoint := fun _ => none, timestamp := 123 }

/-- Sample core model-function result with bare-tensor predictions and one
metric. -/
def sampleCoreSpec : EstimatorSpec :=
  { loss := Tensor.base 99,
    predictions := TensorOrDict.tensor (Tensor.base 10),
    eval_metric_ops := [("acc", Tensor.base 20, Tensor.base 21)],
    scaffold := none }

/-- Sample core model-function result with dict predictions. -/
def sampleDictSpec : EstimatorSpec :=
  { loss := Tensor.base 99,
    predictions := TensorOrDict.dict [("p1", Tensor.base 11), ("p2", Tensor.base 12)],
    eval_metric_ops := [],
    scaffold := none }

/-- Sample contrib model-function result. -/
def sampleContribOps : ModelFnOps :=
  { predictions := TensorOrDict.tensor (Tensor.base 30),
    eval_metric_ops := [("auc", Tensor.base 31, Tensor.base 32)],
    scaffold := some { saver := some 5, localInitOp := none } }

/-- Sample core estimator. -/
def sampleEstimator : Estimator :=
  { variant := EstimatorVariant.core,
    coreModelFn := fun _ _ => sampleCoreSpec,
    contribModelFn := fun _ _ => sampleContribOps,
    tfRandomSeed := some 42,
    modelDir := "/model" }

/-- Sample core estimator whose predictions are a dict. -/
def sampleDictEstimator : Estimator :=
  { variant := EstimatorVariant.core,
    coreModelFn := fun _ _ => sampleDictSpec,
    contribModelFn := fun _ _ => sampleContribOps,
    tfRandomSeed := some 42,
    modelDir := "/model" }

/-- Sample estimator of an unrecognized variant: neither a core
tf.estimator.Estimator instance nor a contrib estimator. -/
def sampleOtherEstimator : Estimator :=
  { variant := EstimatorVariant.other,
    coreModelFn := fun _ _ => sampleCoreSpec,
    contribModelFn := fun _ _ => sampleContribOps,
    tfRandomSeed := none,
    modelDir := "/model" }

/-- Sample contrib estimator. -/
def sampleContribEstimator : Estimator :=
  { variant := EstimatorVariant.contrib,
    coreModelFn := fun _ _ => sampleCoreSpec,
    contribModelFn := fun _ _ => sampleContribOps,
    tfRandomSeed := none,
    modelDir := "/model" }

/-- Sample eval input receiver with dict features and a bare-tensor label. -/
def sampleReceiver : EvalInputReceiver :=
  { features := TensorOrDict.dict [("f1", Tensor.base 1), ("label", Tensor.base 2)],
    receiver_tensors := [("examples", Tensor.placeholder "input_example_tensor")],
    labels := TensorOrDict.tensor (Tensor.base 2) }

/-- Sample eval input receiver function. -/
def sampleReceiverFn : Unit → EvalInputReceiver := fun _ => sampleReceiver

theorem takeWhile_append_all (p : Char → Bool) (xs ys : List Char) (h : ∀ x ∈ xs, p x) :
    (xs ++ ys).takeWhile p = xs ++ ys.takeWhile p := by
  induction xs with
  | nil => simp
  | cons a t ih =>
      have ha : p a := h a (by simp)
      simp only [List.cons_append, List.takeWhile_cons, ha, if_true]
      rw [ih fun x hx => h x (by simp [hx])]

theorem dropWhile_append_all (p : Char → Bool) (xs ys : List Char) (h : ∀ x ∈ xs, p x) :
    (xs ++ ys).dropWhile p = ys.dropWhile p := by
  induction xs with
  | nil => simp
  | cons a t ih =>
      have ha : p a := h a (by simp)
      simp only [List.cons_append, List.dropWhile_cons, ha, if_true]
      exact ih fun x hx => h x (by simp [hx])

theorem dropWhile_shape (p : Char → Bool) (l : List Char) :
    ∀ c rest, l.dropWhile p = c :: rest → ¬ (p c = true) := by
  induction l with
  | nil => intro c rest h; cases h
  | cons a t ih =>
      intro c rest h
      by_cases hpa : p a = true
      · rw [List.dropWhile_cons_of_pos hpa] at h
        exact ih c rest h
      · rw [List.dropWhile_cons_of_neg hpa] at h
        cases h
        exact hpa

theorem strExt {a b : String} (h : a.data = b.data) : a = b := by
  cases a
  cases b
  simp only at h
  rw [h]

theorem strMkData (s : String) : String.mk s.data = s := by
  cases s
  rfl

theorem basenameChars_no_slash (l : List Char) : ∀ c ∈ basenameChars l, ¬ (c = '/') := by
  intro c hc
  unfold basenameChars at hc
  rw [List.mem_reverse] at hc
  have := List.mem_takeWhile_imp hc
  simpa using this

theorem splitChars_no_slash (v : List Char) (hv : ∀ c ∈ v, ¬ (c = '/')) :
    basenameChars v = v ∧ rawHeadChars v = [] := by
  constructor
  · unfold basenameChars
    rw [List.takeWhile_eq_self_iff.mpr]
    · simp
    · intro a ha
      simp only [decide_eq_true_eq]
      exact fun h => hv a (List.mem_reverse.mp ha) h
  · unfold rawHeadChars
    rw [List.dropWhile_eq_nil_iff.mpr]
    · simp
    · intro a ha
      simp only [decide_eq_true_eq]
      exact fun h => hv a (List.mem_reverse.mp ha) h

theorem splitChars_all_slash_head (u v : List Char) (hu : u ≠ []) (hus : ∀ c ∈ u, c = '/')
    (hv : ∀ c ∈ v, ¬ (c = '/')) :
    basenameChars (u ++ v) = v ∧ rawHeadChars (u ++ v) = u := by
  obtain ⟨c, rest, hur⟩ : ∃ c rest, u.reverse = c :: rest := by
    cases hru : u.reverse with
    | nil => exact absurd (by simpa using congrArg List.reverse hru) hu
    | cons c rest => exact ⟨c, rest, rfl⟩
  have hc : c = '/' := hus c (by rw [← List.mem_reverse, hur]; simp)
  have hvrev : ∀ x ∈ v.reverse, (fun c => decide (c ≠ '/')) x = true := by
    intro x hx
    simp only [decide_eq_true_eq]
    exact fun h => hv x (List.mem_reverse.mp hx) h
  constructor
  · unfold basenameChars
    rw [List.reverse_append, takeWhile_append_all _ _ _ hvrev, hur]
    rw [List.takeWhile_cons_of_neg (by simp [hc])]
    simp
  · unfold rawHeadChars
    rw [List.reverse_append, dropWhile_append_all _ _ _ hvrev, hur]
    rw [List.dropWhile_cons_of_neg (by simp [hc])]
    rw [← hur]
    simp

theorem splitChars_mid_slash (u v : List Char) (hv : ∀ c ∈ v, ¬ (c = '/')) :
    basenameChars (u ++ '/' :: v) = v ∧ rawHeadChars (u ++ '/' :: v) = u ++ ['/'] := by
  have hvrev : ∀ x ∈ v.reverse, (fun c => decide (c ≠ '/')) x = true := by
    intro x hx
    simp only [decide_eq_true_eq]
    exact fun h => hv x (List.mem_reverse.mp hx) h
  have hrev : (u ++ '/' :: v).reverse = v.reverse ++ '/' :: u.reverse := by
    simp
  constructor
  · unfold basenameChars
    rw [hrev, takeWhile_append_all _ _ _ hvrev]
    rw [List.takeWhile_cons_of_neg (by simp)]
    simp
  · unfold rawHeadChars
    rw [hrev, dropWhile_append_all _ _ _ hvrev]
    rw [List.dropWhile_cons_of_neg (by simp)]
    simp

theorem headChars_cases (l : List Char) :
    headChars l = [] ∨
    (headChars l ≠ [] ∧ ∀ c ∈ headChars l, c = '/') ∨
    (∃ c rest, (headChars l).reverse = c :: rest ∧ ¬ (c = '/')) := by
  unfold headChars
  cases hany : (rawHeadChars l).any (fun c => decide (c ≠ '/')) with
  | false =>
      simp only [hany, Bool.false_eq_true, if_false]
      have hall : ∀ c ∈ rawHeadChars l, c = '/' := by
        intro c hc
        have := List.any_eq_false.mp hany c hc
        simpa using this
      cases hr : rawHeadChars l with
      | nil => exact Or.inl rfl
      | cons a t =>
          refine Or.inr (Or.inl ⟨by simp, ?_⟩)
          rw [← hr]
          exact hall
  | true =>
      simp only [hany, if_true]
      refine Or.inr (Or.inr ?_)
      obtain ⟨x, hx, hxs⟩ := List.any_eq_true.mp hany
      have hxne : ¬ (x = '/') := by simpa using hxs
      have hne : (rawHeadChars l).reverse.dropWhile (fun c => decide (c = '/')) ≠ [] := by
        intro hnil
        have := List.dropWhile_eq_nil_iff.mp hnil x (List.mem_reverse.mpr hx)
        exact hxne (by simpa using this)
      cases hdw : (rawHeadChars l).reverse.dropWhile (fun c => decide (c = '/')) with
      | nil => exact absurd hdw hne
      | cons c rest =>
          refine ⟨c, rest, ?_, ?_⟩
          · unfold dropTrailingSlashes
            rw [List.reverse_reverse, hdw]
          · have := dropWhile_shape _ _ c rest hdw
            simpa using this

theorem headChars_of_raw_all_slash (v : List Char)
    (hall : ∀ c ∈ rawHeadChars v, c = '/') : headChars v = rawHeadChars v := by
  have h : (rawHeadChars v).any (fun c => c ≠ '/') = false := by
    rw [List.any_eq_false]
    intro x hx
    simp [hall x hx]
  simp only [headChars]
  rw [h]
  simp

theorem headChars_of_raw_nonslash (v : List Char) (x : Char) (hx : x ∈ rawHeadChars v)
    (hxs : ¬ (x = '/')) : headChars v = dropTrailingSlashes (rawHeadChars v) := by
  have h : (rawHeadChars v).any (fun c => c ≠ '/') = true := by
    rw [List.any_eq_true]
    exact ⟨x, hx, by simp [hxs]⟩
  simp only [headChars]
  rw [h]
  simp

theorem dropTrailingSlashes_append_slash (u : List Char) :
    dropTrailingSlashes (u ++ ['/']) = dropTrailingSlashes u := by
  unfold dropTrailingSlashes
  rw [List.reverse_append]
  simp [List.dropWhile_cons]

theorem dropTrailingSlashes_of_last_ne (u : List Char) (c : Char) (rest : List Char)
    (hrev : u.reverse = c :: rest) (hc : ¬ (c = '/')) : dropTrailingSlashes u = u := by
  unfold dropTrailingSlashes
  rw [hrev, List.dropWhile_cons_of_neg (by simp [hc]), ← hrev, List.reverse_reverse]

theorem endsWithSlash_of_all (u : List Char) (hne : u ≠ []) (hall : ∀ c ∈ u, c = '/') :
    endsWithSlash (String.mk u) = true := by
  obtain ⟨c, rest, hur⟩ : ∃ c rest, u.reverse = c :: rest := by
    cases hru : u.reverse with
    | nil => exact absurd (by simpa using congrArg List.reverse hru) hne
    | cons c rest => exact ⟨c, rest, rfl⟩
  have hc : c = '/' := hall c (by rw [← List.mem_reverse, hur]; simp)
  unfold endsWithSlash
  have hlast : u.getLast? = some c := by
    rw [List.getLast?_eq_head?_reverse, hur]
    rfl
  simp only [hlast]
  simp [hc]

theorem endsWithSlash_of_last_ne (u : List Char) (c : Char) (rest : List Char)
    (hrev : u.reverse = c :: rest) (hc : ¬ (c = '/')) :
    endsWithSlash (String.mk u) = false := by
  unfold endsWithSlash
  have hlast : u.getLast? = some c := by
    rw [List.getLast?_eq_head?_reverse, hrev]
    rfl
  simp only [hlast]
  simp [hc]

theorem tempLeafData (bn : List Char) :
    ("temp-" ++ String.mk bn).data = 't' :: 'e' :: 'm' :: 'p' :: '-' :: bn := by
  rw [String.data_append]
  rfl

theorem tempLeaf_no_slash (bn : List Char) (hbn : ∀ c ∈ bn, ¬ (c = '/')) :
    ∀ c ∈ ("temp-" ++ String.mk bn).data, ¬ (c = '/') := by
  intro c hc
  rw [tempLeafData] at hc
  simp only [List.mem_cons] at hc
  rcases hc with rfl | rfl | rfl | rfl | rfl | h
  · simp
  · simp
  · simp
  · simp
  · simp
  · exact hbn c h

theorem startsWithSlash_tempLeaf (bn : List Char) :
    startsWithSlash ("temp-" ++ String.mk bn) = false := by
  unfold startsWithSlash
  rw [tempLeafData]
  rfl

theorem ospathSplit_temp_export_dir (d : String) :
    ospathSplit (_get_temp_export_dir d) = ((ospathSplit d).1, "temp-" ++ (ospathSplit d).2) := by
  have hbn : ∀ c ∈ basenameChars d.data, ¬ (c = '/') := basenameChars_no_slash d.data
  have hleaf : ∀ c ∈ ("temp-" ++ String.mk (basenameChars d.data)).data, ¬ (c = '/') :=
    tempLeaf_no_slash _ hbn
  have hstart : startsWithSlash ("temp-" ++ String.mk (basenameChars d.data)) = false :=
    startsWithSlash_tempLeaf _
  show ospathSplit (ospathJoin (String.mk (headChars d.data))
        ("temp-" ++ String.mk (basenameChars d.data)))
      = (String.mk (headChars d.data), "temp-" ++ String.mk (basenameChars d.data))
  rcases headChars_cases d.data with hcase | ⟨hne, hall⟩ | ⟨c, rest, hrev, hcne⟩
  · rw [hcase]
    have hjoin : ospathJoin (String.mk []) ("temp-" ++ String.mk (basenameChars d.data))
        = String.mk [] ++ ("temp-" ++ String.mk (basenameChars d.data)) := by
      unfold ospathJoin
      rw [hstart]
      simp
    rw [hjoin]
    have hdata : (String.mk [] ++ ("temp-" ++ String.mk (basenameChars d.data))).data
        = ("temp-" ++ String.mk (basenameChars d.data)).data := by
      rw [String.data_append]
      rfl
    obtain ⟨hb, hr⟩ := splitChars_no_slash _ hleaf
    unfold ospathSplit
    rw [hdata, hb, headChars_of_raw_all_slash _ (by rw [hr]; intro x hx; cases hx), hr,
      strMkData]
  · have hews : endsWithSlash (String.mk (headChars d.data)) = true :=
      endsWithSlash_of_all _ hne hall
    have hjoin : ospathJoin (String.mk (headChars d.data))
          ("temp-" ++ String.mk (basenameChars d.data))
        = String.mk (headChars d.data) ++ ("temp-" ++ String.mk (basenameChars d.data)) := by
      unfold ospathJoin
      rw [hstart, hews]
      simp
    rw [hjoin]
    have hdata : (String.mk (headChars d.data)
          ++ ("temp-" ++ String.mk (basenameChars d.data))).data
        = headChars d.data ++ ("temp-" ++ String.mk (basenameChars d.data)).data := by
      rw [String.data_append]
    obtain ⟨hb, hr⟩ := splitChars_all_slash_head _ _ hne hall hleaf
    unfold ospathSplit
    rw [hdata, hb, headChars_of_raw_all_slash _ (by rw [hr]; exact hall), hr, strMkData]
  · have hne : headChars d.data ≠ [] := by
      intro h0
      rw [h0] at hrev
      cases hrev
    have hews : endsWithSlash (String.mk (headChars d.data)) = false :=
      endsWithSlash_of_last_ne _ c rest hrev hcne
    have hisEmpty : (String.mk (headChars d.data)).data.isEmpty = false := by
      cases hh : headChars d.data with
      | nil => exact absurd hh hne
      | cons a t => simp [hh]
    have hjoin : ospathJoin (String.mk (headChars d.data))
          ("temp-" ++ String.mk (basenameChars d.data))
        = String.mk (headChars d.data) ++ "/" ++ ("temp-" ++ String.mk (basenameChars d.data)) := by
      unfold ospathJoin
      rw [hstart, hews]
      simp only [hisEmpty]
      simp
    rw [hjoin]
    have hdata : (String.mk (headChars d.data) ++ "/"
          ++ ("temp-" ++ String.mk (basenameChars d.data))).data
        = headChars d.data ++ '/' :: ("temp-" ++ String.mk (basenameChars d.data)).data := by
      rw [String.data_append, String.data_append]
      simp
    obtain ⟨hb, hr⟩ := splitChars_mid_slash (headChars d.data) _ hleaf
    have hcmem : c ∈ headChars d.data ++ ['/'] := by
      apply List.mem_append_left
      rw [← List.mem_reverse, hrev]
      simp
    unfold ospathSplit
    rw [hdata, hb, headChars_of_raw_nonslash _ c (by rw [hr]; exact hcmem) hcne, hr,
      dropTrailingSlashes_append_slash, dropTrailingSlashes_of_last_ne _ c rest hrev hcne,
      strMkData]

theorem get_temp_export_dir_ne (d : String) : _get_temp_export_dir d ≠ d := by
  intro h
  have h2 := congrArg (fun s => (ospathSplit s).2.data.length) h
  simp only [ospathSplit_temp_export_dir] at h2
  rw [String.data_append] at h2
  simp at h2
  omega

theorem getCollection_nil (q : String) : getCollection [] q = [] := rfl

theorem getCollection_append (a b : List Event) (q : String) :
    getCollection (a ++ b) q = getCollection a q ++ getCollection b q := by
  unfold getCollection
  exact List.filterMap_append a b _

theorem getCollection_cons_add_same (n : String) (v : Encoded) (tr : List Event) :
    getCollection (Event.addToCollection n v :: tr) n = v :: getCollection tr n := by
  unfold getCollection
  simp [List.filterMap_cons]

theorem getCollection_cons_add_other (n q : String) (v : Encoded) (tr : List Event)
    (h : ¬ (n = q)) :
    getCollection (Event.addToCollection n v :: tr) q = getCollection tr q := by
  unfold getCollection
  simp [List.filterMap_cons, h]

theorem getCollection_cons_nonadd (e : Event) (tr : List Event) (q : String)
    (h : isFsEvent e = true ∨ e = Event.invokeReceiverFn ∨ e = Event.createGlobalStep
      ∨ (∃ s, e = Event.setRandomSeed s) ∨ (∃ c f l, e = Event.callModelFn c f l)
      ∨ (∃ s p, e = Event.restoreCheckpoint s p)) :
    getCollection (e :: tr) q = getCollection tr q := by
  cases e with
  | addToCollection n v => simp [isFsEvent] at h
  | invokeReceiverFn =>
      unfold getCollection
      simp [List.filterMap_cons]
  | createGlobalStep =>
      unfold getCollection
      simp [List.filterMap_cons]
  | setRandomSeed s =>
      unfold getCollection
      simp [List.filterMap_cons]
  | callModelFn c f l =>
      unfold getCollection
      simp [List.filterMap_cons]
  | restoreCheckpoint s p =>
      unfold getCollection
      simp [List.filterMap_cons]
  | writeSavedModel d =>
      unfold getCollection
      simp [List.filterMap_cons]
  | renameDir s d =>
      unfold getCollection
      simp [List.filterMap_cons]

theorem getCollection_nodeEvents_key (coll : String) (m : List (String × Tensor))
    (hne : ¬ (coll ++ "/" ++ NODE_SUFFIX = coll ++ "/" ++ KEY_SUFFIX)) :
    getCollection (nodeCollectionEvents coll m) (coll ++ "/" ++ KEY_SUFFIX)
      = m.map fun kv => encode_key kv.1 := by
  induction m with
  | nil => rfl
  | cons kv rest ih =>
      show getCollection (Event.addToCollection (coll ++ "/" ++ KEY_SUFFIX) (encode_key kv.1)
        :: Event.addToCollection (coll ++ "/" ++ NODE_SUFFIX) (encode_tensor_node kv.2)
        :: nodeCollectionEvents coll rest) (coll ++ "/" ++ KEY_SUFFIX) = _
      rw [getCollection_cons_add_same, getCollection_cons_add_other _ _ _ _ hne, ih]
      rfl

theorem getCollection_nodeEvents_node (coll : String) (m : List (String × Tensor))
    (hne : ¬ (coll ++ "/" ++ KEY_SUFFIX = coll ++ "/" ++ NODE_SUFFIX)) :
    getCollection (nodeCollectionEvents coll m) (coll ++ "/" ++ NODE_SUFFIX)
      = m.map fun kv => encode_tensor_node kv.2 := by
  induction m with
  | nil => rfl
  | cons kv rest ih =>
      show getCollection (Event.addToCollection (coll ++ "/" ++ KEY_SUFFIX) (encode_key kv.1)
        :: Event.addToCollection (coll ++ "/" ++ NODE_SUFFIX) (encode_tensor_node kv.2)
        :: nodeCollectionEvents coll rest) (coll ++ "/" ++ NODE_SUFFIX) = _
      rw [getCollection_cons_add_other _ _ _ _ hne, getCollection_cons_add_same, ih]
      rfl

theorem getCollection_nodeEvents_other (coll : String) (m : List (String × Tensor))
    (q : String) (h1 : ¬ (coll ++ "/" ++ KEY_SUFFIX = q)) (h2 : ¬ (coll ++ "/" ++ NODE_SUFFIX = q)) :
    getCollection (nodeCollectionEvents coll m) q = [] := by
  induction m with
  | nil => rfl
  | cons kv rest ih =>
      show getCollection (Event.addToCollection (coll ++ "/" ++ KEY_SUFFIX) (encode_key kv.1)
        :: Event.addToCollection (coll ++ "/" ++ NODE_SUFFIX) (encode_tensor_node kv.2)
        :: nodeCollectionEvents coll rest) q = _
      rw [getCollection_cons_add_other _ _ _ _ h1, getCollection_cons_add_other _ _ _ _ h2, ih]

theorem getCollection_metricEvents_key (m : List (String × Tensor × Tensor)) :
    getCollection (metricEvents m) (METRICS_COLLECTION ++ "/" ++ KEY_SUFFIX)
      = m.map fun x => encode_key x.1 := by
  induction m with
  | nil => rfl
  | cons x rest ih =>
      show getCollection (Event.addToCollection _ _ :: Event.addToCollection _ _
        :: Event.addToCollection _ _ :: metricEvents rest) _ = _
      rw [getCollection_cons_add_same, getCollection_cons_add_other _ _ _ _ (by decide),
        getCollection_cons_add_other _ _ _ _ (by decide), ih]
      rfl

theorem getCollection_metricEvents_value (m : List (String × Tensor × Tensor)) :
    getCollection (metricEvents m) (METRICS_COLLECTION ++ "/" ++ VALUE_OP_SUFFIX)
      = m.map fun x => encode_tensor_node x.2.1 := by
  induction m with
  | nil => rfl
  | cons x rest ih =>
      show getCollection (Event.addToCollection _ _ :: Event.addToCollection _ _
        :: Event.addToCollection _ _ :: metricEvents rest) _ = _
      rw [getCollection_cons_add_other _ _ _ _ (by decide), getCollection_cons_add_same,
        getCollection_cons_add_other _ _ _ _ (by decide), ih]
      rfl

theorem getCollection_metricEvents_update (m : List (String × Tensor × Tensor)) :
    getCollection (metricEvents m) (METRICS_COLLECTION ++ "/" ++ UPDATE_OP_SUFFIX)
      = m.map fun x => encode_tensor_node x.2.2 := by
  induction m with
  | nil => rfl
  | cons x rest ih =>
      show getCollection (Event.addToCollection _ _ :: Event.addToCollection _ _
        :: Event.addToCollection _ _ :: metricEvents rest) _ = _
      rw [getCollection_cons_add_other _ _ _ _ (by decide),
        getCollection_cons_add_other _ _ _ _ (by decide), getCollection_cons_add_same, ih]
      rfl

theorem getCollection_metricEvents_other (m : List (String × Tensor × Tensor)) (q : String)
    (h1 : ¬ (METRICS_COLLECTION ++ "/" ++ KEY_SUFFIX = q))
    (h2 : ¬ (METRICS_COLLECTION ++ "/" ++ VALUE_OP_SUFFIX = q))
    (h3 : ¬ (METRICS_COLLECTION ++ "/" ++ UPDATE_OP_SUFFIX = q)) :
    getCollection (metricEvents m) q = [] := by
  induction m with
  | nil => rfl
  | cons x rest ih =>
      show getCollection (Event.addToCollection _ _ :: Event.addToCollection _ _
        :: Event.addToCollection _ _ :: metricEvents rest) q = _
      rw [getCollection_cons_add_other _ _ _ _ h1, getCollection_cons_add_other _ _ _ _ h2,
        getCollection_cons_add_other _ _ _ _ h3, ih]

theorem decodePairs_encode (m : List (String × Tensor)) :
    decodePairs (m.map fun kv => encode_key kv.1) (m.map fun kv => encode_tensor_node kv.2)
      = some m := by
  induction m with
  | nil => rfl
  | cons kv rest ih =>
      simp only [List.map_cons, decodePairs, decode_key, decode_tensor_node, encode_key,
        encode_tensor_node] at ih ⊢
      rw [ih]

theorem decodeTriples_encode (m : List (String × Tensor × Tensor)) :
    decodeTriples (m.map fun x => encode_key x.1) (m.map fun x => encode_tensor_node x.2.1)
      (m.map fun x => encode_tensor_node x.2.2) = some m := by
  induction m with
  | nil => rfl
  | cons x rest ih =>
      simp only [List.map_cons, decodeTriples, decode_key, decode_tensor_node, encode_key,
        encode_tensor_node] at ih ⊢
      rw [ih]

theorem nodeEvents_nonFs (coll : String) (m : List (String × Tensor)) :
    ∀ e ∈ nodeCollectionEvents coll m, isFsEvent e = false := by
  induction m with
  | nil => intro e he; cases he
  | cons kv rest ih =>
      intro e he
      rcases he with _ | ⟨_, he2⟩
      · rfl
      · rcases he2 with _ | ⟨_, he3⟩
        · rfl
        · exact ih e he3

theorem metricEvents_nonFs (m : List (String × Tensor × Tensor)) :
    ∀ e ∈ metricEvents m, isFsEvent e = false := by
  induction m with
  | nil => intro e he; cases he
  | cons x rest ih =>
      intro e he
      rcases he with _ | ⟨_, _ | ⟨_, _ | ⟨_, he3⟩⟩⟩
      · rfl
      · rfl
      · rfl
      · exact ih e he3

theorem graphPhase_nonFs (est : Estimator) (r : EvalInputReceiver) :
    ∀ e ∈ graphPhaseEvents est r, isFsEvent e = false := by
  intro e he
  unfold graphPhaseEvents at he
  simp only [List.cons_append, List.nil_append, List.mem_cons, List.mem_append] at he
  rcases he with rfl | rfl | rfl | rfl | rfl | hm | hn
  · rfl
  · rfl
  · rfl
  · rfl
  · rfl
  · exact metricEvents_nonFs _ e hm
  · exact nodeEvents_nonFs _ _ e hn

theorem applyFsEvent_nonFs (fs : List String) (e : Event) (h : isFsEvent e = false) :
    applyFsEvent fs e = fs := by
  cases e <;> simp [applyFsEvent] <;> simp [isFsEvent] at h

theorem foldl_applyFs_nonFs (tr : List Event) (h : ∀ e ∈ tr, isFsEvent e = false) :
    ∀ fs, tr.foldl applyFsEvent fs = fs := by
  induction tr with
  | nil => intro fs; rfl
  | cons a t ih =>
      intro fs
      show (t.foldl applyFsEvent (applyFsEvent fs a)) = fs
      rw [applyFsEvent_nonFs fs a (h a (by simp))]
      exact ih (fun e he => h e (by simp [he])) fs

theorem fsAfter_nonFs (tr : List Event) (h : ∀ e ∈ tr, isFsEvent e = false) :
    fsAfter tr = [] :=
  foldl_applyFs_nonFs tr h []

theorem export_ok_eq (env : ExportEnv) (est : Estimator) (base : String)
    (rfn : Unit → EvalInputReceiver) (cp : Option String) (fs : List (String × Tensor))
    (ex : Tensor) (cput : String)
    (hf : (rfn ()).features = TensorOrDict.dict fs)
    (hex : lookupAssoc (rfn ()).receiver_tensors "examples" = some ex)
    (hcp : resolveCheckpoint env est cp = some cput) :
    export_eval_savedmodel env est base rfn cp
      = (graphPhaseEvents est (rfn ())
         ++ [Event.addToCollection INPUT_EXAMPLE_COLLECTION (encode_tensor_node ex)]
         ++ nodeCollectionEvents LABELS_COLLECTION
              (itemsOf (normalizeToDict DEFAULT_LABELS_DICT_KEY (rfn ()).labels))
         ++ nodeCollectionEvents FEATURES_COLLECTION fs
         ++ [Event.restoreCheckpoint (saverForRestore (adaptModel est
               (wrap_tensor_or_dict_of_tensors_in_identity (rfn ()).features)
               (wrap_tensor_or_dict_of_tensors_in_identity (rfn ()).labels)).2) cput,
             Event.writeSavedModel (_get_temp_export_dir (get_timestamped_dir base env.timestamp)),
             Event.renameDir (_get_temp_export_dir (get_timestamped_dir base env.timestamp))
               (get_timestamped_dir base env.timestamp)],
         Except.ok (get_timestamped_dir base env.timestamp)) := by
  simp only [export_eval_savedmodel]
  rw [hex, hf, hcp]

theorem export_keyError_eq (env : ExportEnv) (est : Estimator) (base : String)
    (rfn : Unit → EvalInputReceiver) (cp : Option String)
    (hex : lookupAssoc (rfn ()).receiver_tensors "examples" = none) :
    export_eval_savedmodel env est base rfn cp
      = (graphPhaseEvents est (rfn ()), Except.error ExportError.keyError) := by
  simp only [export_eval_savedmodel]
  rw [hex]

theorem export_noCheckpoint_eq (env : ExportEnv) (est : Estimator) (base : String)
    (rfn : Unit → EvalInputReceiver) (cp : Option String) (fs : List (String × Tensor))
    (ex : Tensor)
    (hf : (rfn ()).features = TensorOrDict.dict fs)
    (hex : lookupAssoc (rfn ()).receiver_tensors "examples" = some ex)
    (hcp : resolveCheckpoint env est cp = none) :
    export_eval_savedmodel env est base rfn cp
      = (graphPhaseEvents est (rfn ())
         ++ [Event.addToCollection INPUT_EXAMPLE_COLLECTION (encode_tensor_node ex)]
         ++ nodeCollectionEvents LABELS_COLLECTION
              (itemsOf (normalizeToDict DEFAULT_LABELS_DICT_KEY (rfn ()).labels))
         ++ nodeCollectionEvents FEATURES_COLLECTION fs,
         Except.error (ExportError.valueError
           ("Could not find trained model at " ++ est.modelDir ++ "."))) := by
  simp only [export_eval_savedmodel]
  rw [hex, hf, hcp]

theorem getCollection_tailFsEvents (s : SaverChoice) (p tmp dir : String) (q : String) :
    getCollection [Event.restoreCheckpoint s p, Event.writeSavedModel tmp,
      Event.renameDir tmp dir] q = [] := rfl

theorem getCollection_single_add_other (n q : String) (v : Encoded) (h : ¬ (n = q)) :
    getCollection [Event.addToCollection n v] q = [] := by
  rw [getCollection_cons_add_other _ _ _ _ h]
  rfl

theorem getCollection_headEvents (s : Option Int) (c : Bool) (f l : TensorOrDict)
    (v : Encoded) (q : String) (hv : ¬ (TFMA_VERSION_COLLECTION = q)) :
    getCollection [Event.invokeReceiverFn, Event.createGlobalStep, Event.setRandomSeed s,
      Event.callModelFn c f l, Event.addToCollection TFMA_VERSION_COLLECTION v] q = [] := by
  unfold getCollection
  simp [List.filterMap_cons, hv]

theorem export_getCollection_graphOnly (env : ExportEnv) (est : Estimator) (base : String)
    (rfn : Unit → EvalInputReceiver) (cp : Option String) (q : String)
    (hie : ¬ (INPUT_EXAMPLE_COLLECTION = q))
    (hlk : ¬ (LABELS_COLLECTION ++ "/" ++ KEY_SUFFIX = q))
    (hln : ¬ (LABELS_COLLECTION ++ "/" ++ NODE_SUFFIX = q))
    (hfk : ¬ (FEATURES_COLLECTION ++ "/" ++ KEY_SUFFIX = q))
    (hfn : ¬ (FEATURES_COLLECTION ++ "/" ++ NODE_SUFFIX = q)) :
    getCollection (export_eval_savedmodel env est base rfn cp).1 q
      = getCollection (graphPhaseEvents est (rfn ())) q := by
  simp only [export_eval_savedmodel]
  cases hex : lookupAssoc (rfn ()).receiver_tensors "examples" with
  | none => rfl
  | some ex =>
      cases hft : (rfn ()).features with
      | tensor t =>
          show getCollection (graphPhaseEvents est (rfn ())
            ++ [Event.addToCollection INPUT_EXAMPLE_COLLECTION (encode_tensor_node ex)]
            ++ nodeCollectionEvents LABELS_COLLECTION
                 (itemsOf (normalizeToDict DEFAULT_LABELS_DICT_KEY (rfn ()).labels))) q = _
          rw [getCollection_append, getCollection_append,
            getCollection_single_add_other _ _ _ hie,
            getCollection_nodeEvents_other _ _ _ hlk hln]
          simp
      | dict fs =>
          cases hcp : resolveCheckpoint env est cp with
          | none =>
              show getCollection (graphPhaseEvents est (rfn ())
                ++ [Event.addToCollection INPUT_EXAMPLE_COLLECTION (encode_tensor_node ex)]
                ++ nodeCollectionEvents LABELS_COLLECTION
                     (itemsOf (normalizeToDict DEFAULT_LABELS_DICT_KEY (rfn ()).labels))
                ++ nodeCollectionEvents FEATURES_COLLECTION fs) q = _
              rw [getCollection_append, getCollection_append, getCollection_append,
                getCollection_single_add_other _ _ _ hie,
                getCollection_nodeEvents_other _ _ _ hlk hln,
                getCollection_nodeEvents_other _ _ _ hfk hfn]
              simp
          | some cput =>
              show getCollection (graphPhaseEvents est (rfn ())
                ++ [Event.addToCollection INPUT_EXAMPLE_COLLECTION (encode_tensor_node ex)]
                ++ nodeCollectionEvents LABELS_COLLECTION
                     (itemsOf (normalizeToDict DEFAULT_LABELS_DICT_KEY (rfn ()).labels))
                ++ nodeCollectionEvents FEATURES_COLLECTION fs
                ++ [Event.restoreCheckpoint _ cput, Event.writeSavedModel _,
                    Event.renameDir _ _]) q = _
              rw [getCollection_append, getCollection_append, getCollection_append,
                getCollection_append, getCollection_single_add_other _ _ _ hie,
                getCollection_nodeEvents_other _ _ _ hlk hln,
                getCollection_nodeEvents_other _ _ _ hfk hfn,
                getCollection_tailFsEvents]
              simp

theorem export_collections (env : ExportEnv) (est : Estimator) (base : String)
    (rfn : Unit → EvalInputReceiver) (cp : Option String) (fs : List (String × Tensor))
    (ex : Tensor) (q : String)
    (hf : (rfn ()).features = TensorOrDict.dict fs)
    (hex : lookupAssoc (rfn ()).receiver_tensors "examples" = some ex) :
    getCollection (export_eval_savedmodel env est base rfn cp).1 q
      = getCollection (graphPhaseEvents est (rfn ())) q
        ++ getCollection [Event.addToCollection INPUT_EXAMPLE_COLLECTION
             (encode_tensor_node ex)] q
        ++ getCollection (nodeCollectionEvents LABELS_COLLECTION
             (itemsOf (normalizeToDict DEFAULT_LABELS_DICT_KEY (rfn ()).labels))) q
        ++ getCollection (nodeCollectionEvents FEATURES_COLLECTION fs) q := by
  cases hcp : resolveCheckpoint env est cp with
  | none =>
      rw [export_noCheckpoint_eq env est base rfn cp fs ex hf hex hcp]
      simp only [getCollection_append]
  | some cput =>
      rw [export_ok_eq env est base rfn cp fs ex cput hf hex hcp]
      simp only [getCollection_append, getCollection_tailFsEvents]
      simp

theorem graphPhase_getCollection_predKey (est : Estimator) (r : EvalInputReceiver) :
    getCollection (graphPhaseEvents est r) (PREDICTIONS_COLLECTION ++ "/" ++ KEY_SUFFIX)
      = (itemsOf (normalizeToDict DEFAULT_PREDICTIONS_DICT_KEY
          (adaptModel est (wrap_tensor_or_dict_of_tensors_in_identity r.features)
            (wrap_tensor_or_dict_of_tensors_in_identity r.labels)).2.predictions)).map
          (fun kv => encode_key kv.1) := by
  simp only [graphPhaseEvents]
  rw [getCollection_append, getCollection_append,
    getCollection_headEvents _ _ _ _ _ _ (by decide),
    getCollection_metricEvents_other _ _ (by decide) (by decide) (by decide),
    getCollection_nodeEvents_key _ _ (by decide)]
  simp

theorem graphPhase_getCollection_predNode (est : Estimator) (r : EvalInputReceiver) :
    getCollection (graphPhaseEvents est r) (PREDICTIONS_COLLECTION ++ "/" ++ NODE_SUFFIX)
      = (itemsOf (normalizeToDict DEFAULT_PREDICTIONS_DICT_KEY
          (adaptModel est (wrap_tensor_or_dict_of_tensors_in_identity r.features)
            (wrap_tensor_or_dict_of_tensors_in_identity r.labels)).2.predictions)).map
          (fun kv => encode_tensor_node kv.2) := by
  simp only [graphPhaseEvents]
  rw [getCollection_append, getCollection_append,
    getCollection_headEvents _ _ _ _ _ _ (by decide),
    getCollection_metricEvents_other _ _ (by decide) (by decide) (by decide),
    getCollection_nodeEvents_node _ _ (by decide)]
  simp

theorem graphPhase_getCollection_metrics (est : Estimator) (r : EvalInputReceiver) :
    getCollection (graphPhaseEvents est r) (METRICS_COLLECTION ++ "/" ++ KEY_SUFFIX)
      = ((adaptModel est (wrap_tensor_or_dict_of_tensors_in_identity r.features)
          (wrap_tensor_or_dict_of_tensors_in_identity r.labels)).2.eval_metric_ops).map
          (fun x => encode_key x.1)
    ∧ getCollection (graphPhaseEvents est r) (METRICS_COLLECTION ++ "/" ++ VALUE_OP_SUFFIX)
      = ((adaptModel est (wrap_tensor_or_dict_of_tensors_in_identity r.features)
          (wrap_tensor_or_dict_of_tensors_in_identity r.labels)).2.eval_metric_ops).map
          (fun x => encode_tensor_node x.2.1)
    ∧ getCollection (graphPhaseEvents est r) (METRICS_COLLECTION ++ "/" ++ UPDATE_OP_SUFFIX)
      = ((adaptModel est (wrap_tensor_or_dict_of_tensors_in_identity r.features)
          (wrap_tensor_or_dict_of_tensors_in_identity r.labels)).2.eval_metric_ops).map
          (fun x => encode_tensor_node x.2.2) := by
  refine ⟨?_, ?_, ?_⟩ <;>
    simp only [graphPhaseEvents] <;>
    rw [getCollection_append, getCollection_append,
      getCollection_headEvents _ _ _ _ _ _ (by decide)]
  · rw [getCollection_metricEvents_key,
      getCollection_nodeEvents_other _ _ _ (by decide) (by decide)]
    simp
  · rw [getCollection_metricEvents_value,
      getCollection_nodeEvents_other _ _ _ (by decide) (by decide)]
    simp
  · rw [getCollection_metricEvents_update,
      getCollection_nodeEvents_other _ _ _ (by decide) (by decide)]
    simp

theorem graphPhase_getCollection_other (est : Estimator) (r : EvalInputReceiver) (q : String)
    (h1 : ¬ (TFMA_VERSION_COLLECTION = q))
    (h2 : ¬ (METRICS_COLLECTION ++ "/" ++ KEY_SUFFIX = q))
    (h3 : ¬ (METRICS_COLLECTION ++ "/" ++ VALUE_OP_SUFFIX = q))
    (h4 : ¬ (METRICS_COLLECTION ++ "/" ++ UPDATE_OP_SUFFIX = q))
    (h5 : ¬ (PREDICTIONS_COLLECTION ++ "/" ++ KEY_SUFFIX = q))
    (h6 : ¬ (PREDICTIONS_COLLECTION ++ "/" ++ NODE_SUFFIX = q)) :
    getCollection (graphPhaseEvents est r) q = [] := by
  simp only [graphPhaseEvents]
  rw [getCollection_append, getCollection_append,
    getCollection_headEvents _ _ _ _ _ _ h1,
    getCollection_metricEvents_other _ _ h2 h3 h4,
    getCollection_nodeEvents_other _ _ _ h5 h6]
  rfl

theorem graphPhaseEvents_eq (est : Estimator) (r : EvalInputReceiver) :
    graphPhaseEvents est r
      = Event.invokeReceiverFn :: Event.createGlobalStep :: Event.setRandomSeed est.tfRandomSeed
        :: Event.callModelFn
             (adaptModel est (wrap_tensor_or_dict_of_tensors_in_identity r.features)
               (wrap_tensor_or_dict_of_tensors_in_identity r.labels)).1
             (wrap_tensor_or_dict_of_tensors_in_identity r.features)
             (wrap_tensor_or_dict_of_tensors_in_identity r.labels)
        :: Event.addToCollection TFMA_VERSION_COLLECTION (Encoded.version VERSION_STRING)
        :: (metricEvents (adaptModel est (wrap_tensor_or_dict_of_tensors_in_identity r.features)
              (wrap_tensor_or_dict_of_tensors_in_identity r.labels)).2.eval_metric_ops
            ++ nodeCollectionEvents PREDICTIONS_COLLECTION
                 (itemsOf (normalizeToDict DEFAULT_PREDICTIONS_DICT_KEY
                   (adaptModel est (wrap_tensor_or_dict_of_tensors_in_identity r.features)
                     (wrap_tensor_or_dict_of_tensors_in_identity r.labels)).2.predictions))) := by
  simp only [graphPhaseEvents]
  rfl

theorem export_trace_graphPrefix (env : ExportEnv) (est : Estimator) (base : String)
    (rfn : Unit → EvalInputReceiver) (cp : Option String) :
    ∃ tail, (export_eval_savedmodel env est base rfn cp).1
      = graphPhaseEvents est (rfn ()) ++ tail := by
  simp only [export_eval_savedmodel]
  cases hex : lookupAssoc (rfn ()).receiver_tensors "examples" with
  | none => exact ⟨[], by simp⟩
  | some ex =>
      cases hft : (rfn ()).features with
      | tensor t =>
          refine ⟨[Event.addToCollection INPUT_EXAMPLE_COLLECTION (encode_tensor_node ex)]
            ++ nodeCollectionEvents LABELS_COLLECTION
                 (itemsOf (normalizeToDict DEFAULT_LABELS_DICT_KEY (rfn ()).labels)), ?_⟩
          simp [List.append_assoc]
      | dict fs =>
          cases hcp : resolveCheckpoint env est cp with
          | none =>
              refine ⟨[Event.addToCollection INPUT_EXAMPLE_COLLECTION (encode_tensor_node ex)]
                ++ nodeCollectionEvents LABELS_COLLECTION
                     (itemsOf (normalizeToDict DEFAULT_LABELS_DICT_KEY (rfn ()).labels))
                ++ nodeCollectionEvents FEATURES_COLLECTION fs, ?_⟩
              simp [List.append_assoc]
          | some cput =>
              refine ⟨[Event.addToCollection INPUT_EXAMPLE_COLLECTION (encode_tensor_node ex)]
                ++ nodeCollectionEvents LABELS_COLLECTION
                     (itemsOf (normalizeToDict DEFAULT_LABELS_DICT_KEY (rfn ()).labels))
                ++ nodeCollectionEvents FEATURES_COLLECTION fs
                ++ [Event.restoreCheckpoint (saverForRestore (adaptModel est
                      (wrap_tensor_or_dict_of_tensors_in_identity (TensorOrDict.dict fs))
                      (wrap_tensor_or_dict_of_tensors_in_identity (rfn ()).labels)).2) cput,
                    Event.writeSavedModel
                      (_get_temp_export_dir (get_timestamped_dir base env.timestamp)),
                    Event.renameDir
                      (_get_temp_export_dir (get_timestamped_dir base env.timestamp))
                      (get_timestamped_dir base env.timestamp)], ?_⟩
              simp [List.append_assoc]

theorem export_trace_head (env : ExportEnv) (est : Estimator) (base : String)
    (rfn : Unit → EvalInputReceiver) (cp : Option String) :
    ∃ rest, (export_eval_savedmodel env est base rfn cp).1
      = Event.invokeReceiverFn :: Event.createGlobalStep
        :: Event.setRandomSeed est.tfRandomSeed
        :: Event.callModelFn
             (adaptModel est (wrap_tensor_or_dict_of_tensors_in_identity (rfn ()).features)
               (wrap_tensor_or_dict_of_tensors_in_identity (rfn ()).labels)).1
             (wrap_tensor_or_dict_of_tensors_in_identity (rfn ()).features)
             (wrap_tensor_or_dict_of_tensors_in_identity (rfn ()).labels) :: rest := by
  obtain ⟨tail, htail⟩ := export_trace_graphPrefix env est base rfn cp
  rw [htail, graphPhaseEvents_eq]
  simp only [List.cons_append]
  exact ⟨_, rfl⟩

theorem lookupAssoc_parse_example (ser : Tensor) (fs : List String) (k : String)
    (h : k ∈ fs) :
    lookupAssoc (parse_example ser fs) k = some (Tensor.parsed ser k) := by
  induction fs with
  | nil => cases h
  | cons a rest ih =>
      show lookupAssoc ((a, Tensor.parsed ser a) :: parse_example ser rest) k = _
      unfold lookupAssoc
      by_cases hak : a = k
      · subst hak
        simp
      · rw [if_neg hak]
        rcases List.mem_cons.mp h with heq | hmem
        · exact absurd heq.symm hak
        · exact ih hmem

theorem identity_ne (t : Tensor) : Tensor.identity t ≠ t := by
  intro h
  have h2 := congrArg (fun x => sizeOf x) h
  simp at h2

theorem export_attrError_eq (env : ExportEnv) (est : Estimator) (base : String)
    (rfn : Unit → EvalInputReceiver) (cp : Option String) (t : Tensor) (ex : Tensor)
    (hf : (rfn ()).features = TensorOrDict.tensor t)
    (hex : lookupAssoc (rfn ()).receiver_tensors "examples" = some ex) :
    export_eval_savedmodel env est base rfn cp
      = (graphPhaseEvents est (rfn ())
         ++ [Event.addToCollection INPUT_EXAMPLE_COLLECTION (encode_tensor_node ex)]
         ++ nodeCollectionEvents LABELS_COLLECTION
              (itemsOf (normalizeToDict DEFAULT_LABELS_DICT_KEY (rfn ()).labels)),
         Except.error ExportError.attributeError) := by
  simp only [export_eval_savedmodel]
  rw [hex, hf]

/-- C9: the tensor-to-mapping normalization used for predictions (default
key predictions) and labels (default labels key) is idempotent, returns
mapping inputs unchanged, and preserves the entry order of mapping
inputs. -/
theorem normalization_idempotent_order_preserving (k : String) :
    (∀ v, normalizeToDict k (normalizeToDict k v) = normalizeToDict k v)
    ∧ (∀ m, normalizeToDict k (TensorOrDict.dict m) = TensorOrDict.dict m)
    ∧ (∀ m, itemsOf (normalizeToDict k (TensorOrDict.dict m)) = m) := by
  refine ⟨?_, ?_, ?_⟩
  · intro v
    cases v <;> rfl
  · intro m
    rfl
  · intro m
    rfl

/-- C8: for every legacy (non-core) estimator, the adapted model spec uses
a zero-constant placeholder loss and carries predictions, metric ops and
scaffold through unchanged from the legacy model-function result. -/
theorem legacy_adaptation_zero_loss (est : Estimator) (f l : TensorOrDict)
    (h : est.variant ≠ EstimatorVariant.core) :
    (adaptModel est f l).2
      = { loss := Tensor.constant 0,
          predictions := (est.contribModelFn f l).predictions,
          eval_metric_ops := (est.contribModelFn f l).eval_metric_ops,
          scaffold := (est.contribModelFn f l).scaffold } := by
  unfold adaptModel
  rw [if_neg h]

/-- Witness for C8 at the sample contrib estimator. -/
theorem legacy_adaptation_zero_loss_witness :
    sampleContribEstimator.variant ≠ EstimatorVariant.core
    ∧ (adaptModel sampleContribEstimator (TensorOrDict.tensor (Tensor.base 0))
        (TensorOrDict.tensor (Tensor.base 1))).2
      = { loss := Tensor.constant 0,
          predictions := (sampleContribEstimator.contribModelFn
            (TensorOrDict.tensor (Tensor.base 0))
            (TensorOrDict.tensor (Tensor.base 1))).predictions,
          eval_metric_ops := (sampleContribEstimator.contribModelFn
            (TensorOrDict.tensor (Tensor.base 0))
            (TensorOrDict.tensor (Tensor.base 1))).eval_metric_ops,
          scaffold := (sampleContribEstimator.contribModelFn
            (TensorOrDict.tensor (Tensor.base 0))
            (TensorOrDict.tensor (Tensor.base 1))).scaffold } :=
  ⟨by decide,
   legacy_adaptation_zero_loss sampleContribEstimator (TensorOrDict.tensor (Tensor.base 0))
     (TensorOrDict.tensor (Tensor.base 1)) (by decide)⟩

/-- C3 counterexample: exporting with an estimator of an unrecognized
variant (neither core nor contrib) raises no configuration error at the
model-adaptation step: the concrete call succeeds end to end and its trace
records a legacy-branch model-function invocation. -/
theorem unrecognized_variant_no_error_cex :
    (export_eval_savedmodel sampleEnv sampleOtherEstimator "/tmp/exports" sampleReceiverFn
        (some "/model/ck-7")).2 = Except.ok "/tmp/exports/123"
    ∧ ((export_eval_savedmodel sampleEnv sampleOtherEstimator "/tmp/exports" sampleReceiverFn
        (some "/model/ck-7")).1.any fun e =>
          match e with
          | Event.callModelFn c _ _ => !c
          | _ => false) = true :=
  ⟨rfl, rfl⟩

/-- C3 amended: every estimator that is not the core variant, including
unrecognized variants, is adapted silently through the legacy branch: no
error is raised and the trace records a legacy model-function call on the
identity-wrapped inputs. -/
theorem non_core_variant_legacy_fallback (env : ExportEnv) (est : Estimator) (base : String)
    (rfn : Unit → EvalInputReceiver) (cp : Option String)
    (h : est.variant ≠ EstimatorVariant.core) :
    ∃ rest, (export_eval_savedmodel env est base rfn cp).1
      = Event.invokeReceiverFn :: Event.createGlobalStep
        :: Event.setRandomSeed est.tfRandomSeed
        :: Event.callModelFn false
             (wrap_tensor_or_dict_of_tensors_in_identity (rfn ()).features)
             (wrap_tensor_or_dict_of_tensors_in_identity (rfn ()).labels) :: rest := by
  obtain ⟨rest, hr⟩ := export_trace_head env est base rfn cp
  refine ⟨rest, ?_⟩
  rw [hr]
  have hfalse : (adaptModel est
      (wrap_tensor_or_dict_of_tensors_in_identity (rfn ()).features)
      (wrap_tensor_or_dict_of_tensors_in_identity (rfn ()).labels)).1 = false := by
    unfold adaptModel
    rw [if_neg h]
  rw [hfalse]

/-- Witness for the amended C3 at the sample unrecognized-variant
estimator. -/
theorem non_core_variant_legacy_fallback_witness :
    sampleOtherEstimator.variant ≠ EstimatorVariant.core
    ∧ ∃ rest, (export_eval_savedmodel sampleEnv sampleOtherEstimator "/tmp/exports"
        sampleReceiverFn none).1
      = Event.invokeReceiverFn :: Event.createGlobalStep
        :: Event.setRandomSeed sampleOtherEstimator.tfRandomSeed
        :: Event.callModelFn false
             (wrap_tensor_or_dict_of_tensors_in_identity (sampleReceiverFn ()).features)
             (wrap_tensor_or_dict_of_tensors_in_identity (sampleReceiverFn ()).labels) :: rest :=
  ⟨by decide,
   non_core_variant_legacy_fallback sampleEnv sampleOtherEstimator "/tmp/exports"
     sampleReceiverFn none (by decide)⟩

/-- C4 counterexample: in the concrete sample run the receiver function is
invoked at trace position 0, before the global-step counter is created and
before randomness is seeded, refuting the claimed order. -/
theorem global_step_order_cex :
    ¬ ((((export_eval_savedmodel sampleEnv sampleEstimator "/tmp/exports" sampleReceiverFn
          none).1.findIdx fun e =>
            match e with
            | Event.createGlobalStep => true
            | _ => false)
        < ((export_eval_savedmodel sampleEnv sampleEstimator "/tmp/exports" sampleReceiverFn
          none).1.findIdx fun e =>
            match e with
            | Event.invokeReceiverFn => true
            | _ => false))
       ∧ (((export_eval_savedmodel sampleEnv sampleEstimator "/tmp/exports" sampleReceiverFn
          none).1.findIdx fun e =>
            match e with
            | Event.setRandomSeed _ => true
            | _ => false)
        < ((export_eval_savedmodel sampleEnv sampleEstimator "/tmp/exports" sampleReceiverFn
          none).1.findIdx fun e =>
            match e with
            | Event.invokeReceiverFn => true
            | _ => false))) := by
  decide

/-- C4 amended: in every call to export, eval_input_receiver_fn is invoked
first; the global-step counter is then created and randomness is seeded
from the estimator configuration, both before the model function is
invoked. -/
theorem receiver_invoked_before_init (env : ExportEnv) (est : Estimator) (base : String)
    (rfn : Unit → EvalInputReceiver) (cp : Option String) :
    ∃ rest, (export_eval_savedmodel env est base rfn cp).1
      = Event.invokeReceiverFn :: Event.createGlobalStep
        :: Event.setRandomSeed est.tfRandomSeed
        :: Event.callModelFn
             (adaptModel est (wrap_tensor_or_dict_of_tensors_in_identity (rfn ()).features)
               (wrap_tensor_or_dict_of_tensors_in_identity (rfn ()).labels)).1
             (wrap_tensor_or_dict_of_tensors_in_identity (rfn ()).features)
             (wrap_tensor_or_dict_of_tensors_in_identity (rfn ()).labels) :: rest :=
  export_trace_head env est base rfn cp

/-- C7: for every feature spec containing the label key, the built parsing
receiver function returns an EvalInputReceiver whose receiver_tensors maps
the examples key to the serialized-input placeholder, whose features is
the full parsed feature mapping (label entry not removed), and whose
labels is the single parsed tensor at the label key. -/
theorem parsing_receiver_structure (feature_spec : List String) (label_key : String)
    (h : label_key ∈ feature_spec) :
    build_parsing_eval_input_receiver_fn feature_spec label_key ()
      = some { features := TensorOrDict.dict
                 (parse_example (Tensor.placeholder "input_example_tensor") feature_spec),
               receiver_tensors := [("examples", Tensor.placeholder "input_example_tensor")],
               labels := TensorOrDict.tensor
                 (Tensor.parsed (Tensor.placeholder "input_example_tensor") label_key) }
      ∧ label_key ∈ (parse_example (Tensor.placeholder "input_example_tensor")
          feature_spec).map Prod.fst
      ∧ lookupAssoc (parse_example (Tensor.placeholder "input_example_tensor") feature_spec)
          label_key
        = some (Tensor.parsed (Tensor.placeholder "input_example_tensor") label_key) := by
  refine ⟨?_, ?_, ?_⟩
  · simp only [build_parsing_eval_input_receiver_fn]
    rw [lookupAssoc_parse_example _ _ _ h]
  · unfold parse_example
    simp only [List.map_map]
    simpa using h
  · exact lookupAssoc_parse_example _ _ _ h

/-- Witness for C7 at the concrete feature spec containing keys f1 and
label, with label as the label key. -/
theorem parsing_receiver_structure_witness :
    build_parsing_eval_input_receiver_fn ["f1", "label"] "label" ()
      = some { features := TensorOrDict.dict
                 (parse_example (Tensor.placeholder "input_example_tensor") ["f1", "label"]),
               receiver_tensors := [("examples", Tensor.placeholder "input_example_tensor")],
               labels := TensorOrDict.tensor
                 (Tensor.parsed (Tensor.placeholder "input_example_tensor") "label") }
      ∧ "label" ∈ (parse_example (Tensor.placeholder "input_example_tensor")
          ["f1", "label"]).map Prod.fst
      ∧ lookupAssoc (parse_example (Tensor.placeholder "input_example_tensor") ["f1", "label"])
          "label"
        = some (Tensor.parsed (Tensor.placeholder "input_example_tensor") "label") :=
  parsing_receiver_structure ["f1", "label"] "label" (by decide)

/-- C6: when the adapted model's predictions are a bare tensor, exactly one
predictions entry is registered, under the default predictions key; when
they are a mapping of N entries, exactly those N entries are registered in
the mapping's iteration order. -/
theorem predictions_registration_counts (env : ExportEnv) (est : Estimator) (base : String)
    (rfn : Unit → EvalInputReceiver) (cp : Option String) :
    (∀ t, (adaptModel est
          (wrap_tensor_or_dict_of_tensors_in_identity (rfn ()).features)
          (wrap_tensor_or_dict_of_tensors_in_identity (rfn ()).labels)).2.predictions
            = TensorOrDict.tensor t →
        getCollection (export_eval_savedmodel env est base rfn cp).1
            (PREDICTIONS_COLLECTION ++ "/" ++ KEY_SUFFIX)
          = [encode_key DEFAULT_PREDICTIONS_DICT_KEY]
        ∧ getCollection (export_eval_savedmodel env est base rfn cp).1
            (PREDICTIONS_COLLECTION ++ "/" ++ NODE_SUFFIX)
          = [encode_tensor_node t])
    ∧ (∀ m, (adaptModel est
          (wrap_tensor_or_dict_of_tensors_in_identity (rfn ()).features)
          (wrap_tensor_or_dict_of_tensors_in_identity (rfn ()).labels)).2.predictions
            = TensorOrDict.dict m →
        getCollection (export_eval_savedmodel env est base rfn cp).1
            (PREDICTIONS_COLLECTION ++ "/" ++ KEY_SUFFIX)
          = m.map (fun kv => encode_key kv.1)
        ∧ getCollection (export_eval_savedmodel env est base rfn cp).1
            (PREDICTIONS_COLLECTION ++ "/" ++ NODE_SUFFIX)
          = m.map (fun kv => encode_tensor_node kv.2)) := by
  constructor
  · intro t ht
    constructor
    · rw [export_getCollection_graphOnly env est base rfn cp _ (by decide) (by decide)
          (by decide) (by decide) (by decide), graphPhase_getCollection_predKey, ht]
      rfl
    · rw [export_getCollection_graphOnly env est base rfn cp _ (by decide) (by decide)
          (by decide) (by decide) (by decide), graphPhase_getCollection_predNode, ht]
      rfl
  · intro m hm
    constructor
    · rw [export_getCollection_graphOnly env est base rfn cp _ (by decide) (by decide)
          (by decide) (by decide) (by decide), graphPhase_getCollection_predKey, hm]
      rfl
    · rw [export_getCollection_graphOnly env est base rfn cp _ (by decide) (by decide)
          (by decide) (by decide) (by decide), graphPhase_getCollection_predNode, hm]
      rfl

/-- Witness for C6: a sample run with bare-tensor predictions registers the
single default entry, and a sample run with a two-entry predictions dict
registers both entries in order. -/
theorem predictions_registration_counts_witness :
    (getCollection (export_eval_savedmodel sampleEnv sampleEstimator "/tmp/exports"
        sampleReceiverFn none).1 (PREDICTIONS_COLLECTION ++ "/" ++ KEY_SUFFIX)
      = [encode_key DEFAULT_PREDICTIONS_DICT_KEY]
     ∧ getCollection (export_eval_savedmodel sampleEnv sampleEstimator "/tmp/exports"
        sampleReceiverFn none).1 (PREDICTIONS_COLLECTION ++ "/" ++ NODE_SUFFIX)
      = [encode_tensor_node (Tensor.base 10)])
    ∧ (getCollection (export_eval_savedmodel sampleEnv sampleDictEstimator "/tmp/exports"
        sampleReceiverFn none).1 (PREDICTIONS_COLLECTION ++ "/" ++ KEY_SUFFIX)
      = [encode_key "p1", encode_key "p2"]
     ∧ getCollection (export_eval_savedmodel sampleEnv sampleDictEstimator "/tmp/exports"
        sampleReceiverFn none).1 (PREDICTIONS_COLLECTION ++ "/" ++ NODE_SUFFIX)
      = [encode_tensor_node (Tensor.base 11), encode_tensor_node (Tensor.base 12)]) :=
  ⟨(predictions_registration_counts sampleEnv sampleEstimator "/tmp/exports" sampleReceiverFn
      none).1 (Tensor.base 10) rfl,
   (predictions_registration_counts sampleEnv sampleDictEstimator "/tmp/exports" sampleReceiverFn
      none).2 [("p1", Tensor.base 11), ("p2", Tensor.base 12)] rfl⟩

/-- C2: after export, the KEY and NODE collections of the predictions,
labels and features buckets, and the KEY, VALUE_OP and UPDATE_OP
collections of the metrics bucket, have equal length and matching
positional order, so decoding recovers exactly the registered mapping for
inputs of any size. -/
theorem bucket_decode_roundtrip (env : ExportEnv) (est : Estimator) (base : String)
    (rfn : Unit → EvalInputReceiver) (cp : Option String) (fs : List (String × Tensor))
    (ex : Tensor)
    (hf : (rfn ()).features = TensorOrDict.dict fs)
    (hex : lookupAssoc (rfn ()).receiver_tensors "examples" = some ex) :
    decodeBucket (export_eval_savedmodel env est base rfn cp).1 PREDICTIONS_COLLECTION
      = some (itemsOf (normalizeToDict DEFAULT_PREDICTIONS_DICT_KEY
          (adaptModel est (wrap_tensor_or_dict_of_tensors_in_identity (rfn ()).features)
            (wrap_tensor_or_dict_of_tensors_in_identity (rfn ()).labels)).2.predictions))
    ∧ decodeBucket (export_eval_savedmodel env est base rfn cp).1 LABELS_COLLECTION
      = some (itemsOf (normalizeToDict DEFAULT_LABELS_DICT_KEY (rfn ()).labels))
    ∧ decodeBucket (export_eval_savedmodel env est base rfn cp).1 FEATURES_COLLECTION
      = some fs
    ∧ decodeMetrics (export_eval_savedmodel env est base rfn cp).1
      = some (adaptModel est (wrap_tensor_or_dict_of_tensors_in_identity (rfn ()).features)
          (wrap_tensor_or_dict_of_tensors_in_identity (rfn ()).labels)).2.eval_metric_ops
    ∧ (getCollection (export_eval_savedmodel env est base rfn cp).1
        (PREDICTIONS_COLLECTION ++ "/" ++ KEY_SUFFIX)).length
      = (getCollection (export_eval_savedmodel env est base rfn cp).1
        (PREDICTIONS_COLLECTION ++ "/" ++ NODE_SUFFIX)).length
    ∧ (getCollection (export_eval_savedmodel env est base rfn cp).1
        (LABELS_COLLECTION ++ "/" ++ KEY_SUFFIX)).length
      = (getCollection (export_eval_savedmodel env est base rfn cp).1
        (LABELS_COLLECTION ++ "/" ++ NODE_SUFFIX)).length
    ∧ (getCollection (export_eval_savedmodel env est base rfn cp).1
        (FEATURES_COLLECTION ++ "/" ++ KEY_SUFFIX)).length
      = (getCollection (export_eval_savedmodel env est base rfn cp).1
        (FEATURES_COLLECTION ++ "/" ++ NODE_SUFFIX)).length
    ∧ (getCollection (export_eval_savedmodel env est base rfn cp).1
        (METRICS_COLLECTION ++ "/" ++ KEY_SUFFIX)).length
      = (getCollection (export_eval_savedmodel env est base rfn cp).1
        (METRICS_COLLECTION ++ "/" ++ VALUE_OP_SUFFIX)).length
    ∧ (getCollection (export_eval_savedmodel env est base rfn cp).1
        (METRICS_COLLECTION ++ "/" ++ KEY_SUFFIX)).length
      = (getCollection (export_eval_savedmodel env est base rfn cp).1
        (METRICS_COLLECTION ++ "/" ++ UPDATE_OP_SUFFIX)).length := by
  have hpk : getCollection (export_eval_savedmodel env est base rfn cp).1
      (PREDICTIONS_COLLECTION ++ "/" ++ KEY_SUFFIX)
      = (itemsOf (normalizeToDict DEFAULT_PREDICTIONS_DICT_KEY
          (adaptModel est (wrap_tensor_or_dict_of_tensors_in_identity (rfn ()).features)
            (wrap_tensor_or_dict_of_tensors_in_identity (rfn ()).labels)).2.predictions)).map
          (fun kv => encode_key kv.1) := by
    rw [export_getCollection_graphOnly env est base rfn cp _ (by decide) (by decide)
      (by decide) (by decide) (by decide), graphPhase_getCollection_predKey]
  have hpn : getCollection (export_eval_savedmodel env est base rfn cp).1
      (PREDICTIONS_COLLECTION ++ "/" ++ NODE_SUFFIX)
      = (itemsOf (normalizeToDict DEFAULT_PREDICTIONS_DICT_KEY
          (adaptModel est (wrap_tensor_or_dict_of_tensors_in_identity (rfn ()).features)
            (wrap_tensor_or_dict_of_tensors_in_identity (rfn ()).labels)).2.predictions)).map
          (fun kv => encode_tensor_node kv.2) := by
    rw [export_getCollection_graphOnly env est base rfn cp _ (by decide) (by decide)
      (by decide) (by decide) (by decide), graphPhase_getCollection_predNode]
  have hlk : getCollection (export_eval_savedmodel env est base rfn cp).1
      (LABELS_COLLECTION ++ "/" ++ KEY_SUFFIX)
      = (itemsOf (normalizeToDict DEFAULT_LABELS_DICT_KEY (rfn ()).labels)).map
          (fun kv => encode_key kv.1) := by
    rw [export_collections env est base rfn cp fs ex _ hf hex,
      graphPhase_getCollection_other _ _ _ (by decide) (by decide) (by decide) (by decide)
        (by decide) (by decide),
      getCollection_single_add_other _ _ _ (by decide),
      getCollection_nodeEvents_key _ _ (by decide),
      getCollection_nodeEvents_other _ _ _ (by decide) (by decide)]
    simp
  have hln : getCollection (export_eval_savedmodel env est base rfn cp).1
      (LABELS_COLLECTION ++ "/" ++ NODE_SUFFIX)
      = (itemsOf (normalizeToDict DEFAULT_LABELS_DICT_KEY (rfn ()).labels)).map
          (fun kv => encode_tensor_node kv.2) := by
    rw [export_collections env est base rfn cp fs ex _ hf hex,
      graphPhase_getCollection_other _ _ _ (by decide) (by decide) (by decide) (by decide)
        (by decide) (by decide),
      getCollection_single_add_other _ _ _ (by decide),
      getCollection_nodeEvents_node _ _ (by decide),
      getCollection_nodeEvents_other _ _ _ (by decide) (by decide)]
    simp
  have hfk : getCollection (export_eval_savedmodel env est base rfn cp).1
      (FEATURES_COLLECTION ++ "/" ++ KEY_SUFFIX)
      = fs.map (fun kv => encode_key kv.1) := by
    rw [export_collections env est base rfn cp fs ex _ hf hex,
      graphPhase_getCollection_other _ _ _ (by decide) (by decide) (by decide) (by decide)
        (by decide) (by decide),
      getCollection_single_add_other _ _ _ (by decide),
      getCollection_nodeEvents_other _ _ _ (by decide) (by decide),
      getCollection_nodeEvents_key _ _ (by decide)]
    simp
  have hfn : getCollection (export_eval_savedmodel env est base rfn cp).1
      (FEATURES_COLLECTION ++ "/" ++ NODE_SUFFIX)
      = fs.map (fun kv => encode_tensor_node kv.2) := by
    rw [export_collections env est base rfn cp fs ex _ hf hex,
      graphPhase_getCollection_other _ _ _ (by decide) (by decide) (by decide) (by decide)
        (by decide) (by decide),
      getCollection_single_add_other _ _ _ (by decide),
      getCollection_nodeEvents_other _ _ _ (by decide) (by decide),
      getCollection_nodeEvents_node _ _ (by decide)]
    simp
  have hmets := graphPhase_getCollection_metrics est (rfn ())
  have hmk : getCollection (export_eval_savedmodel env est base rfn cp).1
      (METRICS_COLLECTION ++ "/" ++ KEY_SUFFIX)
      = ((adaptModel est (wrap_tensor_or_dict_of_tensors_in_identity (rfn ()).features)
          (wrap_tensor_or_dict_of_tensors_in_identity (rfn ()).labels)).2.eval_metric_ops).map
          (fun x => encode_key x.1) := by
    rw [export_getCollection_graphOnly env est base rfn cp _ (by decide) (by decide)
      (by decide) (by decide) (by decide)]
    exact hmets.1
  have hmv : getCollection (export_eval_savedmodel env est base rfn cp).1
      (METRICS_COLLECTION ++ "/" ++ VALUE_OP_SUFFIX)
      = ((adaptModel est (wrap_tensor_or_dict_of_tensors_in_identity (rfn ()).features)
          (wrap_tensor_or_dict_of_tensors_in_identity (rfn ()).labels)).2.eval_metric_ops).map
          (fun x => encode_tensor_node x.2.1) := by
    rw [export_getCollection_graphOnly env est base rfn cp _ (by decide) (by decide)
      (by decide) (by decide) (by decide)]
    exact hmets.2.1
  have hmu : getCollection (export_eval_savedmodel env est base rfn cp).1
      (METRICS_COLLECTION ++ "/" ++ UPDATE_OP_SUFFIX)
      = ((adaptModel est (wrap_tensor_or_dict_of_tensors_in_identity (rfn ()).features)
          (wrap_tensor_or_dict_of_tensors_in_identity (rfn ()).labels)).2.eval_metric_ops).map
          (fun x => encode_tensor_node x.2.2) := by
    rw [export_getCollection_graphOnly env est base rfn cp _ (by decide) (by decide)
      (by decide) (by decide) (by decide)]
    exact hmets.2.2
  refine ⟨?_, ?_, ?_, ?_, ?_, ?_, ?_, ?_, ?_⟩
  · unfold decodeBucket
    rw [hpk, hpn, decodePairs_encode]
  · unfold decodeBucket
    rw [hlk, hln, decodePairs_encode]
  · unfold decodeBucket
    rw [hfk, hfn, decodePairs_encode]
  · unfold decodeMetrics
    rw [hmk, hmv, hmu, decodeTriples_encode]
  · rw [hpk, hpn]
    simp
  · rw [hlk, hln]
    simp
  · rw [hfk, hfn]
    simp
  · rw [hmk, hmv]
    simp
  · rw [hmk, hmu]
    simp

/-- Witness for C2 at the concrete sample run. -/
theorem bucket_decode_roundtrip_witness :
    decodeBucket (export_eval_savedmodel sampleEnv sampleEstimator "/tmp/exports"
        sampleReceiverFn none).1 PREDICTIONS_COLLECTION
      = some [(DEFAULT_PREDICTIONS_DICT_KEY, Tensor.base 10)]
    ∧ decodeBucket (export_eval_savedmodel sampleEnv sampleEstimator "/tmp/exports"
        sampleReceiverFn none).1 LABELS_COLLECTION
      = some [(DEFAULT_LABELS_DICT_KEY, Tensor.base 2)]
    ∧ decodeBucket (export_eval_savedmodel sampleEnv sampleEstimator "/tmp/exports"
        sampleReceiverFn none).1 FEATURES_COLLECTION
      = some [("f1", Tensor.base 1), ("label", Tensor.base 2)]
    ∧ decodeMetrics (export_eval_savedmodel sampleEnv sampleEstimator "/tmp/exports"
        sampleReceiverFn none).1
      = some [("acc", Tensor.base 20, Tensor.base 21)] := by
  have h := bucket_decode_roundtrip sampleEnv sampleEstimator "/tmp/exports" sampleReceiverFn
    none [("f1", Tensor.base 1), ("label", Tensor.base 2)]
    (Tensor.placeholder "input_example_tensor") rfl rfl
  exact ⟨h.1, h.2.1, h.2.2.1, h.2.2.2.1⟩

/-- C10: the feature and label nodes registered in the metadata collections
are the original receiver tensors, while the model function is called on
the identity-wrapped copies, and an identity wrapper never equals the
tensor it wraps. -/
theorem original_nodes_registered (env : ExportEnv) (est : Estimator) (base : String)
    (rfn : Unit → EvalInputReceiver) (cp : Option String) (fs : List (String × Tensor))
    (ex : Tensor)
    (hf : (rfn ()).features = TensorOrDict.dict fs)
    (hex : lookupAssoc (rfn ()).receiver_tensors "examples" = some ex) :
    (∃ rest, (export_eval_savedmodel env est base rfn cp).1
      = Event.invokeReceiverFn :: Event.createGlobalStep
        :: Event.setRandomSeed est.tfRandomSeed
        :: Event.callModelFn
             (adaptModel est (wrap_tensor_or_dict_of_tensors_in_identity (rfn ()).features)
               (wrap_tensor_or_dict_of_tensors_in_identity (rfn ()).labels)).1
             (wrap_tensor_or_dict_of_tensors_in_identity (rfn ()).features)
             (wrap_tensor_or_dict_of_tensors_in_identity (rfn ()).labels) :: rest)
    ∧ getCollection (export_eval_savedmodel env est base rfn cp).1
        (FEATURES_COLLECTION ++ "/" ++ NODE_SUFFIX)
      = fs.map (fun kv => encode_tensor_node kv.2)
    ∧ getCollection (export_eval_savedmodel env est base rfn cp).1
        (LABELS_COLLECTION ++ "/" ++ NODE_SUFFIX)
      = (itemsOf (normalizeToDict DEFAULT_LABELS_DICT_KEY (rfn ()).labels)).map
          (fun kv => encode_tensor_node kv.2)
    ∧ wrap_tensor_or_dict_of_tensors_in_identity ((rfn ()).features)
      = TensorOrDict.dict (fs.map fun kv => (kv.1, Tensor.identity kv.2))
    ∧ (∀ t, Tensor.identity t ≠ t) := by
  refine ⟨export_trace_head env est base rfn cp, ?_, ?_, ?_, identity_ne⟩
  · rw [export_collections env est base rfn cp fs ex _ hf hex,
      graphPhase_getCollection_other _ _ _ (by decide) (by decide) (by decide) (by decide)
        (by decide) (by decide),
      getCollection_single_add_other _ _ _ (by decide),
      getCollection_nodeEvents_other _ _ _ (by decide) (by decide),
      getCollection_nodeEvents_node _ _ (by decide)]
    simp
  · rw [export_collections env est base rfn cp fs ex _ hf hex,
      graphPhase_getCollection_other _ _ _ (by decide) (by decide) (by decide) (by decide)
        (by decide) (by decide),
      getCollection_single_add_other _ _ _ (by decide),
      getCollection_nodeEvents_node _ _ (by decide),
      getCollection_nodeEvents_other _ _ _ (by decide) (by decide)]
    simp
  · rw [hf]
    rfl

/-- Witness for C10 at the concrete sample run. -/
theorem original_nodes_registered_witness :
    (∃ rest, (export_eval_savedmodel sampleEnv sampleEstimator "/tmp/exports"
        sampleReceiverFn none).1
      = Event.invokeReceiverFn :: Event.createGlobalStep
        :: Event.setRandomSeed sampleEstimator.tfRandomSeed
        :: Event.callModelFn
             (adaptModel sampleEstimator
               (wrap_tensor_or_dict_of_tensors_in_identity (sampleReceiverFn ()).features)
               (wrap_tensor_or_dict_of_tensors_in_identity (sampleReceiverFn ()).labels)).1
             (wrap_tensor_or_dict_of_tensors_in_identity (sampleReceiverFn ()).features)
             (wrap_tensor_or_dict_of_tensors_in_identity (sampleReceiverFn ()).labels) :: rest)
    ∧ getCollection (export_eval_savedmodel sampleEnv sampleEstimator "/tmp/exports"
        sampleReceiverFn none).1 (FEATURES_COLLECTION ++ "/" ++ NODE_SUFFIX)
      = [("f1", Tensor.base 1), ("label", Tensor.base 2)].map
          (fun kv => encode_tensor_node kv.2)
    ∧ getCollection (export_eval_savedmodel sampleEnv sampleEstimator "/tmp/exports"
        sampleReceiverFn none).1 (LABELS_COLLECTION ++ "/" ++ NODE_SUFFIX)
      = (itemsOf (normalizeToDict DEFAULT_LABELS_DICT_KEY (sampleReceiverFn ()).labels)).map
          (fun kv => encode_tensor_node kv.2)
    ∧ wrap_tensor_or_dict_of_tensors_in_identity ((sampleReceiverFn ()).features)
      = TensorOrDict.dict ([("f1", Tensor.base 1), ("label", Tensor.base 2)].map
          fun kv => (kv.1, Tensor.identity kv.2))
    ∧ (∀ t, Tensor.identity t ≠ t) :=
  original_nodes_registered sampleEnv sampleEstimator "/tmp/exports" sampleReceiverFn none
    [("f1", Tensor.base 1), ("label", Tensor.base 2)]
    (Tensor.placeholder "input_example_tensor") rfl rfl

/-- C5: with no checkpoint path given and no checkpoint discoverable under
the estimator's model directory, export fails with the ValueError
configuration error and no directory is created at all, neither the temp
one nor the final one. -/
theorem missing_checkpoint_fails_no_dirs (env : ExportEnv) (est : Estimator) (base : String)
    (rfn : Unit → EvalInputReceiver) (fs : List (String × Tensor)) (ex : Tensor)
    (hf : (rfn ()).features = TensorOrDict.dict fs)
    (hex : lookupAssoc (rfn ()).receiver_tensors "examples" = some ex)
    (hck : env.latestCheckpoint est.modelDir = none) :
    (export_eval_savedmodel env est base rfn none).2
      = Except.error (ExportError.valueError
          ("Could not find trained model at " ++ est.modelDir ++ "."))
    ∧ fsAfter (export_eval_savedmodel env est base rfn none).1 = [] := by
  have hcp : resolveCheckpoint env est none = none := by
    simp only [resolveCheckpoint]
    rw [hck]
  rw [export_noCheckpoint_eq env est base rfn none fs ex hf hex hcp]
  refine ⟨rfl, ?_⟩
  apply fsAfter_nonFs
  intro e he
  simp only [List.mem_append] at he
  rcases he with ((hg | hie) | hlab) | hfeat
  · exact graphPhase_nonFs _ _ e hg
  · rw [List.mem_singleton] at hie
    subst hie
    rfl
  · exact nodeEvents_nonFs _ _ e hlab
  · exact nodeEvents_nonFs _ _ e hfeat

/-- Witness for C5 at the sample environment with no discoverable
checkpoint. -/
theorem missing_checkpoint_fails_no_dirs_witness :
    (export_eval_savedmodel sampleEnvNoCk sampleEstimator "/tmp/exports"
        sampleReceiverFn none).2
      = Except.error (ExportError.valueError
          ("Could not find trained model at " ++ sampleEstimator.modelDir ++ "."))
    ∧ fsAfter (export_eval_savedmodel sampleEnvNoCk sampleEstimator "/tmp/exports"
        sampleReceiverFn none).1 = [] :=
  missing_checkpoint_fails_no_dirs sampleEnvNoCk sampleEstimator "/tmp/exports"
    sampleReceiverFn [("f1", Tensor.base 1), ("label", Tensor.base 2)]
    (Tensor.placeholder "input_example_tensor") rfl rfl rfl

/-- C1: every successful export writes the saved model only into the
sibling directory whose leaf name is temp- prefixed to the final
timestamped leaf, the single rename of that temp directory to the final
path is the last step of the trace, and before that rename no directory
ever exists at the final path. -/
theorem export_atomic_temp_rename (env : ExportEnv) (est : Estimator) (base : String)
    (rfn : Unit → EvalInputReceiver) (cp : Option String) (dir : String)
    (hok : (export_eval_savedmodel env est base rfn cp).2 = Except.ok dir) :
    (∃ pre, (export_eval_savedmodel env est base rfn cp).1
        = pre ++ [Event.writeSavedModel (_get_temp_export_dir dir),
                  Event.renameDir (_get_temp_export_dir dir) dir]
      ∧ ∀ e ∈ pre, isFsEvent e = false)
    ∧ ospathSplit (_get_temp_export_dir dir)
      = ((ospathSplit dir).1, "temp-" ++ (ospathSplit dir).2)
    ∧ ∀ i, i < (export_eval_savedmodel env est base rfn cp).1.length →
        dir ∉ fsAfter ((export_eval_savedmodel env est base rfn cp).1.take i) := by
  cases hex : lookupAssoc (rfn ()).receiver_tensors "examples" with
  | none =>
      rw [export_keyError_eq env est base rfn cp hex] at hok
      cases hok
  | some ex =>
      cases hft : (rfn ()).features with
      | tensor t =>
          rw [export_attrError_eq env est base rfn cp t ex hft hex] at hok
          cases hok
      | dict fs =>
          cases hcp : resolveCheckpoint env est cp with
          | none =>
              rw [export_noCheckpoint_eq env est base rfn cp fs ex hft hex hcp] at hok
              cases hok
          | some cput =>
              have heq := export_ok_eq env est base rfn cp fs ex cput hft hex hcp
              rw [heq] at hok
              have hdir : get_timestamped_dir base env.timestamp = dir := by
                simpa using hok
              rw [hdir] at heq
              obtain ⟨pre, htr, hpre⟩ : ∃ pre,
                  (export_eval_savedmodel env est base rfn cp).1
                    = pre ++ [Event.writeSavedModel (_get_temp_export_dir dir),
                              Event.renameDir (_get_temp_export_dir dir) dir]
                  ∧ ∀ e ∈ pre, isFsEvent e = false := by
                refine ⟨graphPhaseEvents est (rfn ())
                  ++ [Event.addToCollection INPUT_EXAMPLE_COLLECTION (encode_tensor_node ex)]
                  ++ nodeCollectionEvents LABELS_COLLECTION
                       (itemsOf (normalizeToDict DEFAULT_LABELS_DICT_KEY (rfn ()).labels))
                  ++ nodeCollectionEvents FEATURES_COLLECTION fs
                  ++ [Event.restoreCheckpoint (saverForRestore (adaptModel est
                        (wrap_tensor_or_dict_of_tensors_in_identity (rfn ()).features)
                        (wrap_tensor_or_dict_of_tensors_in_identity (rfn ()).labels)).2) cput],
                  ?_, ?_⟩
                · rw [heq]
                  simp [List.append_assoc]
                · intro e he
                  simp only [List.mem_append] at he
                  rcases he with (((hg | hie) | hlab) | hfeat) | hrest
                  · exact graphPhase_nonFs _ _ e hg
                  · rw [List.mem_singleton] at hie
                    subst hie
                    rfl
                  · exact nodeEvents_nonFs _ _ e hlab
                  · exact nodeEvents_nonFs _ _ e hfeat
                  · rw [List.mem_singleton] at hrest
                    subst hrest
                    rfl
              refine ⟨⟨pre, htr, hpre⟩, ospathSplit_temp_export_dir dir, ?_⟩
              intro i hi
              rw [htr] at hi ⊢
              rw [List.length_append] at hi
              simp only [List.length_cons, List.length_nil] at hi
              by_cases hle : i ≤ pre.length
              · rw [List.take_append_eq_append_take]
                have h0 : i - pre.length = 0 := by omega
                rw [h0]
                simp only [List.take_zero, List.append_nil]
                rw [fsAfter_nonFs _ (fun e he => hpre e (List.take_subset _ _ he))]
                simp
              · have hieq : i = pre.length + 1 := by omega
                subst hieq
                rw [List.take_append_eq_append_take, List.take_of_length_le (by omega)]
                have h1 : pre.length + 1 - pre.length = 1 := by omega
                rw [h1]
                have htake : ([Event.writeSavedModel (_get_temp_export_dir dir),
                    Event.renameDir (_get_temp_export_dir dir) dir]).take 1
                    = [Event.writeSavedModel (_get_temp_export_dir dir)] := rfl
                rw [htake]
                unfold fsAfter
                rw [List.foldl_append, foldl_applyFs_nonFs _ hpre]
                simp only [List.foldl_cons, List.foldl_nil, applyFsEvent, List.nil_append]
                rw [List.mem_singleton]
                intro hdt
                exact get_temp_export_dir_ne dir hdt.symm

/-- Witness for C1 at the concrete sample run, whose export succeeds and
returns the timestamped directory. -/
theorem export_atomic_temp_rename_witness :
    (∃ pre, (export_eval_savedmodel sampleEnv sampleEstimator "/tmp/exports"
        sampleReceiverFn none).1
        = pre ++ [Event.writeSavedModel (_get_temp_export_dir "/tmp/exports/123"),
                  Event.renameDir (_get_temp_export_dir "/tmp/exports/123") "/tmp/exports/123"]
      ∧ ∀ e ∈ pre, isFsEvent e = false)
    ∧ ospathSplit (_get_temp_export_dir "/tmp/exports/123")
      = ((ospathSplit "/tmp/exports/123").1, "temp-" ++ (ospathSplit "/tmp/exports/123").2)
    ∧ ∀ i, i < (export_eval_savedmodel sampleEnv sampleEstimator "/tmp/exports"
        sampleReceiverFn none).1.length →
        "/tmp/exports/123" ∉ fsAfter ((export_eval_savedmodel sampleEnv sampleEstimator
          "/tmp/exports" sampleReceiverFn none).1.take i) :=
  export_atomic_temp_rename sampleEnv sampleEstimator "/tmp/exports" sampleReceiverFn none
    "/tmp/exports/123" rfl

end TFMAExport

